import Mathlib

/-!
# Verification of the langflow GMGN / DexScreener component layer

Shallow embedding of `src/backend/base/langflow/packages/gmgn/client.py` and
`src/backend/base/langflow/components/dexscreen/*.py`, with proofs about the
request pipeline, the DexScreener input validation, the RSI / swing-point
technical indicators and the markdown report assembler.

Modelling conventions:
* Python `float` is modelled as `Rat` (exact rational arithmetic); the claims
  settled here do not depend on binary floating-point rounding.
* Python dictionaries are association lists `List (String × PyVal)`; `d.get`
  is `dget`.
* Fallible Python code (exceptions) is modelled with `Except String`.
-/

/-- Model of a Python runtime value (the subset used by the code under
verification).  `dt` models a `datetime.datetime` object carrying the value
its `.timestamp()` method returns. -/
inductive PyVal where
  | none
  | bool (b : Bool)
  | int (n : Int)
  | float (q : Rat)
  | str (s : String)
  | list (xs : List PyVal)
  | dict (xs : List (String × PyVal))
  | dt (ts : Rat)

/-- Python `is None`. -/
def PyVal.isNone : PyVal → Bool
  | .none => true
  | _ => false

/-- Python truthiness. -/
def PyVal.truthy : PyVal → Bool
  | .none => false
  | .bool b => b
  | .int n => decide (n ≠ 0)
  | .float q => decide (q ≠ 0)
  | .str s => decide (s ≠ "")
  | .list xs => !xs.isEmpty
  | .dict xs => !xs.isEmpty
  | .dt _ => true

/-- `d.get(k, default)` on a Python dict. -/
def dget (d : List (String × PyVal)) (k : String) (default : PyVal) : PyVal :=
  match d.lookup k with
  | some v => v
  | Option.none => default

/-- Python list slice `l[-k:]` (for `k ≥ 1`). -/
def lastN (l : List α) (k : Nat) : List α := l.drop (l.length - k)

/-! ## Technical indicators (`client.py`, `_calculate_technical_indicators`) -/

/-- One processed candle (`processed_candles` entries in `_format_kline_data`). -/
structure Candle where
  time : Int
  open_ : Rat
  high : Rat
  low : Rat
  close : Rat
  volume : Rat

/-- The consecutive price differences
`[prices[i] - prices[i-1] for i in range(1, len(prices))]` of `calculate_rsi`. -/
def deltasOf (prices : List Rat) : List Rat :=
  (prices.zip prices.tail).map fun p => p.2 - p.1

/-- The `gains` list of `calculate_rsi`: `[d if d > 0 else 0 for d in deltas]`. -/
def rsiGains (prices : List Rat) : List Rat :=
  (deltasOf prices).map fun d => if 0 < d then d else 0

/-- The `losses` list of `calculate_rsi`: `[-d if d < 0 else 0 for d in deltas]`. -/
def rsiLosses (prices : List Rat) : List Rat :=
  (deltasOf prices).map fun d => if d < 0 then -d else 0

/-- `avg_gain = sum(gains[-periods:]) / periods` in `calculate_rsi`. -/
def rsiAvgGain (prices : List Rat) (periods : Nat) : Rat :=
  (lastN (rsiGains prices) periods).sum / (periods : Rat)

/-- `avg_loss = sum(losses[-periods:]) / periods` in `calculate_rsi`. -/
def rsiAvgLoss (prices : List Rat) (periods : Nat) : Rat :=
  (lastN (rsiLosses prices) periods).sum / (periods : Rat)

/-- `calculate_rsi` (client.py lines 623–639), floats as rationals. -/
def calculate_rsi (prices : List Rat) (periods : Nat) : Rat :=
  if prices.length < periods + 1 then 50
  else if rsiAvgLoss prices periods = 0 then 100
  else 100 - 100 / (1 + rsiAvgGain prices periods / rsiAvgLoss prices periods)

/-- `find_swing_points` (client.py lines 568–576).  For each
`i in range(window, len(prices) - window)` the point is a support when it is
`≤` every price in the surrounding window and a resistance when it is `≥`
every price in the surrounding window. -/
def find_swing_points (prices : List Rat) (window : Nat) : List Rat × List Rat :=
  let idxs := List.range' window (prices.length - 2 * window)
  let supports := idxs.filterMap fun i =>
    if (List.range' (i - window) (2 * window + 1)).all
        (fun j => decide (prices.getD i 0 ≤ prices.getD j 0))
    then some (prices.getD i 0) else Option.none
  let resistances := idxs.filterMap fun i =>
    if (List.range' (i - window) (2 * window + 1)).all
        (fun j => decide (prices.getD j 0 ≤ prices.getD i 0))
    then some (prices.getD i 0) else Option.none
  (supports, resistances)

/-- Insertion into a sorted list (ascending), used to model Python `sorted`. -/
def insertSorted (a : Rat) : List Rat → List Rat
  | [] => [a]
  | b :: t => if a ≤ b then a :: b :: t else b :: insertSorted a t

/-- Python `sorted` on rationals (insertion sort; ascending). -/
def pysorted (l : List Rat) : List Rat := l.foldr insertSorted []

/-- Python `sorted(set(l))`: the distinct values of `l` in ascending order. -/
def pysortedset (l : List Rat) : List Rat := pysorted l.dedup

/-- Python `max` over a list of rationals (the callers below only apply it to
non-empty lists, where Python `max` is total). -/
def pymax : List Rat → Rat
  | [] => 0
  | a :: t => t.foldl max a

/-- Python `min` over a list of rationals (callers only use non-empty lists). -/
def pymin : List Rat → Rat
  | [] => 0
  | a :: t => t.foldl min a

/-- `calculate_trend` (client.py lines 579–586): sign of the least-squares
slope.  For `n ≥ 2` the denominator `n·Σx² - (Σx)²` is strictly positive, so
the Python division never raises; `Rat` division is total anyway. -/
def calculate_trend (prices : List Rat) : String :=
  if prices.length < 2 then "Neutral"
  else
    let n := prices.length
    let xs := List.range n
    let sumXY := ((xs.zip prices).map fun p => ((p.1 : Nat) : Rat) * p.2).sum
    let sumX : Rat := (xs.map fun i => ((i : Nat) : Rat)).sum
    let sumY := prices.sum
    let sumXX := (xs.map fun i => ((i : Nat) : Rat) * ((i : Nat) : Rat)).sum
    let slope := ((n : Rat) * sumXY - sumX * sumY) / ((n : Rat) * sumXX - sumX * sumX)
    if 0 < slope then "Uptrend ðŸ“ˆ"
    else if slope < 0 then "Downtrend ðŸ“‰"
    else "Neutral â†”ï¸"

/-- `find_patterns` (client.py lines 589–609). -/
def find_patterns (candles : List Candle) : List String :=
  let doubleTop : List String :=
    if 20 < candles.length then
      let highs := (lastN candles 20).map (·.high)
      if pymax (highs.take (highs.length - 10)) - pymax (lastN highs 10)
          < 1 / 100 * pymax highs
      then ["Potential Double Top"] else []
    else []
  let doubleBottom : List String :=
    if 20 < candles.length then
      let lows := (lastN candles 20).map (·.low)
      if pymin (lastN lows 10) - pymin (lows.take (lows.length - 10))
          < 1 / 100 * pymin lows
      then ["Potential Double Bottom"] else []
    else []
  let flag : List String :=
    if 10 < candles.length then
      let recent_trend := calculate_trend ((lastN candles 10).map (·.close))
      if recent_trend ≠ "Neutral" then
        [if recent_trend = "Uptrend ðŸ“ˆ" then
            "Potential Bull Flag" else "Potential Bear Flag"]
      else []
    else []
  doubleTop ++ doubleBottom ++ flag

/-- The five Fibonacci retracement levels of
`calculate_fibonacci_levels` (client.py lines 612–620). -/
structure FibLevels where
  f236 : Rat
  f382 : Rat
  f500 : Rat
  f618 : Rat
  f786 : Rat

/-- `calculate_fibonacci_levels` (client.py lines 612–620). -/
def calculate_fibonacci_levels (high low : Rat) : FibLevels :=
  let diff := high - low
  { f236 := low + 236 / 1000 * diff
    f382 := low + 382 / 1000 * diff
    f500 := low + 500 / 1000 * diff
    f618 := low + 618 / 1000 * diff
    f786 := low + 786 / 1000 * diff }

/-- The dictionary returned by `_calculate_technical_indicators`. -/
structure TechnicalIndicators where
  trend : String
  patterns : List String
  support_levels : List Rat
  resistance_levels : List Rat
  fibonacci_levels : FibLevels
  rsi : Rat

/-- `_calculate_technical_indicators` (client.py lines 557–659).
`none` models the `if not candles: return {}` early exit.

Note the faithful transcription of line 642:
`supports, resistances = find_swing_points(lows), find_swing_points(highs)`
binds each python name to a whole `(supports, resistances)` PAIR, so that
`supports[0]` is the local-minima list of the lows and `resistances[0]` is
the local-MINIMA list of the highs.  Both pairs are non-empty tuples, hence
always truthy, so the `if supports` / `if resistances` guards on lines
655–656 always take the first branch. -/
def calculate_technical_indicators (candles : List Candle) : Option TechnicalIndicators :=
  if candles.isEmpty then Option.none
  else
    let closes := candles.map (·.close)
    let highs := candles.map (·.high)
    let lows := candles.map (·.low)
    let supports := find_swing_points lows 5
    let resistances := find_swing_points highs 5
    let recent_high := if 20 < highs.length then pymax (lastN highs 20) else pymax highs
    let recent_low := if 20 < lows.length then pymin (lastN lows 20) else pymin lows
    some
      { trend := calculate_trend closes
        patterns := find_patterns candles
        support_levels := pysortedset supports.1
        resistance_levels := pysortedset resistances.1
        fibonacci_levels := calculate_fibonacci_levels recent_high recent_low
        rsi := calculate_rsi closes 14 }

/-! ## GMGN request pipeline (`client.py`, `_make_request`) -/

/-- The mutable `requests.Session` state of `GmGnClient`: the cookie jar
(name ↦ value; cookie domain and path are dropped — no claim depends on
them), the `user-agent` header, and the client's `has_valid_cookies` flag. -/
structure Session where
  cookies : List (String × String)
  userAgent : String
  hasValidCookies : Bool

/-- `session.cookies.set(name, value, ...)`: override any existing cookie
with that name. -/
def cookieSet (jar : List (String × String)) (name value : String) :
    List (String × String) :=
  (name, value) :: jar.filter (fun c => c.1 ≠ name)

/-- Outcome of the `requests.post` to the clearance scraper inside
`_get_cf_clearance`: `exc` models a raised exception (connection error or
JSON decode failure), otherwise the HTTP status and the decoded body — the
`cookies` entries (name/value) and the optional `headers['user-agent']`. -/
inductive ScraperOutcome where
  | exc
  | resp (status : Nat) (cookies : List (String × String)) (userAgent : Option String)

/-- Whether `_get_cf_clearance` reports success for a given scraper outcome
(it returns `False` on any exception and on any non-200 status). -/
def clearanceOk : ScraperOutcome → Bool
  | .exc => false
  | .resp status _ _ => status == 200

/-- The session mutations of a successful `_get_cf_clearance`: set each
returned cookie, optionally update the `user-agent` header, and mark
`has_valid_cookies = True`. -/
def applyClearance (s : Session) (cs : List (String × String))
    (ua : Option String) : Session :=
  let s1 := { s with cookies := cs.foldl (fun jar (c : String × String) => cookieSet jar c.1 c.2) s.cookies }
  let s2 := match ua with
    | some u => { s1 with userAgent := u }
    | Option.none => s1
  { s2 with hasValidCookies := true }

/-- `_get_cf_clearance` (client.py lines 40–76): the returned bool and the
updated session. -/
def get_cf_clearance (s : Session) (o : ScraperOutcome) : Bool × Session :=
  match o with
  | .exc => (false, s)
  | .resp status cs ua =>
    if status = 200 then (true, applyClearance s cs ua) else (false, s)

/-- An HTTP response as seen by `_make_request`: status code, response
headers, whether `.json()` decodes without raising, and the decoded body. -/
structure HttpResponse where
  status : Nat
  headers : List (String × String)
  jsonOk : Bool
  body : PyVal

/-- Outcome of a `requests`/session GET: a raised exception or a response. -/
inductive HttpOutcome where
  | exc
  | resp (r : HttpResponse)

/-- Splitting a character list at every occurrence of a separator character
(structurally recursive, so that proofs can evaluate it). -/
def pysplitChar (sep : Char) : List Char → List (List Char)
  | [] => [[]]
  | c :: rest =>
    if c = sep then [] :: pysplitChar sep rest
    else
      match pysplitChar sep rest with
      | [] => [[c]]
      | h :: t => (c :: h) :: t

/-- Python `s.split(sep)` for a single-character separator (the only kind of
separator the code under verification uses: `';'`, `'='` and `','`). -/
def pysplit (sep : Char) (s : String) : List String :=
  (pysplitChar sep s.data).map fun cs => String.mk cs

/-- Python `sep.join(parts)` (structurally recursive). -/
def pyjoin (sep : String) : List String → String
  | [] => ""
  | [x] => x
  | x :: xs => x ++ sep ++ pyjoin sep xs

/-- The ASCII whitespace characters Python `str.strip()` removes. -/
def isPyWhitespace (c : Char) : Bool :=
  c = ' ' || c = '\t' || c = '\n' || c = '\r' || c = '\x0b' || c = '\x0c'

/-- Python `str.strip()` (ASCII whitespace; the call sites only ever see
ASCII input). -/
def pystrip (s : String) : String :=
  String.mk (((s.data.dropWhile isPyWhitespace).reverse.dropWhile isPyWhitespace).reverse)

/-- Python `c in s` membership of a character in a string. -/
def pycontains (s : String) (c : Char) : Bool := s.data.contains c

/-- `_update_cookies_from_headers` (client.py lines 78–91): when the
`Zr-Set-Cookie` header is present and non-empty, split it on `';'`, strip
the first part, and if that first part contains `'='` split it at the first
`'='` into name/value and set that cookie.  (The `if parts:` check of line
85 is kept although `split` never yields an empty list.) -/
def update_cookies_from_headers (headers : List (String × String))
    (s : Session) : Session :=
  match headers.lookup "Zr-Set-Cookie" with
  | Option.none => s
  | some cookieStr =>
    if cookieStr = "" then s
    else
      match pysplit ';' cookieStr with
      | [] => s
      | p0 :: _ =>
        let mainPart := pystrip p0
        if pycontains mainPart '=' then
          match pysplit '=' mainPart with
          | [] => s
          | name :: rest =>
            { s with cookies := cookieSet s.cookies name (pyjoin "=" rest) }
        else s

/-- Specification-side reading of `_update_cookies_from_headers`: the cookie
it sets, when it sets one — the header must be present and non-empty and the
stripped first `';'`-separated part must contain `'='`. -/
def zrCookie (headers : List (String × String)) : Option (String × String) :=
  match headers.lookup "Zr-Set-Cookie" with
  | Option.none => Option.none
  | some cookieStr =>
    if cookieStr = "" then Option.none
    else
      match pysplit ';' cookieStr with
      | [] => Option.none
      | p0 :: _ =>
        let mainPart := pystrip p0
        if pycontains mainPart '=' then
          match pysplit '=' mainPart with
          | [] => Option.none
          | name :: rest => some (name, pyjoin "=" rest)
        else Option.none

/-- External-world oracle for a single `_make_request` call: the outcome
each external interaction would have, in program order.  Components that
the control flow never reaches are simply unused. -/
structure Oracle where
  scraperInit : ScraperOutcome
  direct1 : HttpOutcome
  scraperRefresh : ScraperOutcome
  direct2 : HttpOutcome
  proxy : HttpOutcome

/-- Counts of the external calls actually issued during one `_make_request`
run, separated by call site: the initial-clearance call (line 103), the
401/403 clearance refresh (line 114), direct session GETs (lines 108 and
115), and the proxy GET (line 127). -/
structure Trace where
  initClearanceCalls : Nat
  refreshClearanceCalls : Nat
  directCalls : Nat
  proxyCalls : Nat

/-- The exceptions `_make_request` can raise. -/
inductive GmgnError where
  | initialClearanceFailed
  | directRequestFailed
  | fetchFailed
  | requestFailedWithStatus (code : Nat)

/-- `params.get("no_proxy", False)` truthiness (client.py line 99). -/
def noProxyFlag (params : Option (List (String × PyVal))) : Bool :=
  match params with
  | Option.none => false
  | some p => (dget p "no_proxy" (.bool false)).truthy

/-- Result of the `try` block of lines 107–119 (the direct path): the body
returned (if any), the session afterwards, and how many direct GETs and
clearance refreshes were issued. -/
structure DirectPhaseResult where
  returned : Option PyVal
  session : Session
  directCalls : Nat
  refreshCalls : Nat

/-- The direct path of `_make_request` (client.py lines 107–119): first
direct GET; on 200 return the decoded JSON; on 401/403 refresh the clearance
once and, if the refresh succeeded, retry the direct GET once; any exception
is swallowed and every remaining case falls through (`returned = none`). -/
def direct_phase (s : Session) (o : Oracle) : DirectPhaseResult :=
  match o.direct1 with
  | .exc => ⟨Option.none, s, 1, 0⟩
  | .resp r =>
    if r.status = 200 then
      if r.jsonOk then ⟨some r.body, s, 1, 0⟩ else ⟨Option.none, s, 1, 0⟩
    else if r.status = 403 ∨ r.status = 401 then
      let c := get_cf_clearance s o.scraperRefresh
      if c.1 then
        match o.direct2 with
        | .exc => ⟨Option.none, c.2, 2, 1⟩
        | .resp r2 =>
          if r2.status = 200 then
            if r2.jsonOk then ⟨some r2.body, c.2, 2, 1⟩
            else ⟨Option.none, c.2, 2, 1⟩
          else ⟨Option.none, c.2, 2, 1⟩
      else ⟨Option.none, c.2, 1, 1⟩
    else ⟨Option.none, s, 1, 0⟩

/-- The initial-clearance step (client.py lines 102–104): the session the
direct path starts from, or `none` when the initial clearance fails and
`_make_request` raises. -/
def initSession (s : Session) (o : Oracle) : Option Session :=
  if s.hasValidCookies then some s
  else
    let c := get_cf_clearance s o.scraperInit
    if c.1 then some c.2 else Option.none

/-- The 401/403 retry produced a decoded HTTP-200 response: the clearance
refresh succeeded and the second direct GET returned 200 with decodable
JSON. -/
def retrySucceeded (o : Oracle) : Prop :=
  clearanceOk o.scraperRefresh = true ∧
  ∃ r2, o.direct2 = .resp r2 ∧ r2.status = 200 ∧ r2.jsonOk = true

/-- The outcome of one `_make_request` call: the returned JSON or raised
exception, the session afterwards, and the trace of external calls. -/
structure MRResult where
  result : Except GmgnError PyVal
  session : Session
  trace : Trace

/-- The tail of `_make_request` after the direct path (client.py lines
121–134): the `no_proxy` bail-out, the proxy GET (on 200: update cookies
from the `Zr-Set-Cookie` header, then return the decoded JSON), and the
final failure cases. -/
def make_request_core (dp : DirectPhaseResult) (np : Bool)
    (proxy : HttpOutcome) (ic : Nat) : MRResult :=
  match dp.returned with
  | some body =>
    { result := .ok body, session := dp.session
      trace := ⟨ic, dp.refreshCalls, dp.directCalls, 0⟩ }
  | Option.none =>
    if np then
      { result := .error .directRequestFailed, session := dp.session
        trace := ⟨ic, dp.refreshCalls, dp.directCalls, 0⟩ }
    else
      match proxy with
      | .exc =>
        { result := .error .fetchFailed, session := dp.session
          trace := ⟨ic, dp.refreshCalls, dp.directCalls, 1⟩ }
      | .resp pr =>
        if pr.status = 200 then
          let s2 := update_cookies_from_headers pr.headers dp.session
          if pr.jsonOk then
            { result := .ok pr.body, session := s2
              trace := ⟨ic, dp.refreshCalls, dp.directCalls, 1⟩ }
          else
            { result := .error .fetchFailed, session := s2
              trace := ⟨ic, dp.refreshCalls, dp.directCalls, 1⟩ }
        else
          { result := .error (.requestFailedWithStatus pr.status)
            session := dp.session
            trace := ⟨ic, dp.refreshCalls, dp.directCalls, 1⟩ }

/-- `_make_request` (client.py lines 93–134): initial clearance when the
session lacks valid cookies, the direct path, then `make_request_core`. -/
def make_request (s : Session) (params : Option (List (String × PyVal)))
    (o : Oracle) : MRResult :=
  match initSession s o with
  | Option.none => { result := .error .initialClearanceFailed, session := s
                     trace := ⟨1, 0, 0, 0⟩ }
  | some s1 =>
    make_request_core (direct_phase s1 o) (noProxyFlag params) o.proxy
      (if s.hasValidCookies then 0 else 1)

/-! ## DexScreener components (`components/dexscreen/*.py`) -/

/-- The `DexScreenMethod` enum (dexscreen_method.py). -/
inductive DexScreenMethod where
  | get_token_profiles
  | get_boosted_tokens
  | get_top_boosted_tokens
  | get_token_orders
  | get_pairs
  | get_pairs_by_token
  | search_pairs

/-- Errors a DexScreener operation can surface. `toolError` models the
re-raise as `ToolException(f"Error retrieving ...: {e}")` done by the tool
components` catch-all handler. -/
inductive DexError where
  | valueError (msg : String)
  | httpError (status : Nat)
  | connectionError
  | jsonError
  | toolError (e : DexError)

/-- One HTTP request issued through `requests.get`: URL plus the query
parameters passed via `params=`. -/
structure DexRequest where
  url : String
  query : List (String × String)

/-- The `BASE_URL` constant of the DexScreener components. -/
def dexBaseUrl : String := "https://api.dexscreener.com"

/-- `requests.get` followed by `raise_for_status()` and `.json()`:
an exception outcome raises, a 4XX/5XX status raises `HTTPError`, an
undecodable body raises on `.json()`. -/
def getJson (o : HttpOutcome) : Except DexError PyVal :=
  match o with
  | .exc => .error .connectionError
  | .resp r =>
    if 400 ≤ r.status then .error (.httpError r.status)
    else if r.jsonOk then .ok r.body else .error .jsonError

/-- Python iteration `[Model(**x) for x in data]` over a decoded JSON value:
expects a list.  DTO field validation is not modelled (no claim depends on
it) — the raw elements are returned. -/
def asPyList : PyVal → Except DexError (List PyVal)
  | .list xs => .ok xs
  | _ => .error .jsonError

/-- `response.json().get("pairs", [])` (and iteration over the result). -/
def dictGetList (v : PyVal) (k : String) : Except DexError (List PyVal) :=
  match v with
  | .dict d =>
    match dget d k (.list []) with
    | .list xs => .ok xs
    | _ => .error .jsonError
  | _ => .error .jsonError

/-- The `except`-handler of the tool components: every exception is
re-raised as a `ToolException` wrapping the original error text. -/
def toolWrap (r : Except DexError (List PyVal)) : Except DexError (List PyVal) :=
  match r with
  | .ok v => .ok v
  | .error e => .error (.toolError e)

/-- `getJson` followed by list iteration (the profile/boost/order
endpoints). -/
def fetchList (o : HttpOutcome) : Except DexError (List PyVal) :=
  match getJson o with
  | .error e => .error e
  | .ok j => asPyList j

/-- `getJson` followed by `.get(key, [])` extraction (the pairs/search
endpoints). -/
def fetchPairsList (o : HttpOutcome) (k : String) : Except DexError (List PyVal) :=
  match getJson o with
  | .error e => .error e
  | .ok j => dictGetList j k

/-- Outcome of one DexScreener operation together with the list of HTTP
requests it issued, in order. -/
structure DexResult where
  outcome : Except DexError (List PyVal)
  requests : List DexRequest

/-- `[addr.strip() for addr in token_addresses.split(",") if addr.strip()]`
(dexscreen_tool.py line 116 / dexscreen_api.py line 126). -/
def cleanAddresses (token_addresses : String) : List String :=
  (pysplit ',' token_addresses).filterMap fun a =>
    if pystrip a ≠ "" then some (pystrip a) else Option.none

/-- `_dexscreen_tool` (dexscreen_tool.py lines 75–140).  `o` is the outcome
the single `requests.get` of the selected branch would have. -/
def dexscreen_tool (chain_id pair_id token_addresses search_query : String)
    (method : DexScreenMethod) (o : HttpOutcome) : DexResult :=
  match method with
  | .get_token_profiles =>
    { outcome := toolWrap (fetchList o)
      requests := [⟨dexBaseUrl ++ "/token-profiles/latest/v1", []⟩] }
  | .get_boosted_tokens =>
    { outcome := toolWrap (fetchList o)
      requests := [⟨dexBaseUrl ++ "/token-boosts/latest/v1", []⟩] }
  | .get_top_boosted_tokens =>
    { outcome := toolWrap (fetchList o)
      requests := [⟨dexBaseUrl ++ "/token-boosts/top/v1", []⟩] }
  | .get_token_orders =>
    if chain_id = "" ∨ token_addresses = "" then
      { outcome := .error (.toolError (.valueError
          "Both chain_id and token_addresses are required for GET_TOKEN_ORDERS"))
        requests := [] }
    else
      { outcome := toolWrap (fetchList o)
        requests := [⟨dexBaseUrl ++ "/orders/v1/" ++ chain_id ++ "/" ++ token_addresses, []⟩] }
  | .get_pairs =>
    if chain_id = "" ∨ pair_id = "" then
      { outcome := .error (.toolError (.valueError
          "Both chain_id and pair_id are required for GET_PAIRS"))
        requests := [] }
    else
      { outcome := toolWrap (fetchPairsList o "pairs")
        requests := [⟨dexBaseUrl ++ "/latest/dex/pairs/" ++ chain_id ++ "/" ++ pair_id, []⟩] }
  | .get_pairs_by_token =>
    if token_addresses = "" then
      { outcome := .error (.toolError (.valueError
          "token_addresses is required for GET_PAIRS_BY_TOKEN"))
        requests := [] }
    else
      let addresses_list := cleanAddresses token_addresses
      if 30 < addresses_list.length then
        { outcome := .error (.toolError (.valueError
            "Maximum of 30 token addresses allowed"))
          requests := [] }
      else
        { outcome := toolWrap (fetchPairsList o "pairs")
          requests := [⟨dexBaseUrl ++ "/latest/dex/tokens/" ++ pyjoin "," addresses_list, []⟩] }
  | .search_pairs =>
    if search_query = "" then
      { outcome := .error (.toolError (.valueError
          "search_query is required for SEARCH_PAIRS"))
        requests := [] }
    else
      { outcome := toolWrap (fetchPairsList o "pairs")
        requests := [⟨dexBaseUrl ++ "/latest/dex/search", [("q", search_query)]⟩] }

/-- `PairsTool._get_pairs` (dexscreen_pairs.py lines 56–72). -/
def pairs_tool_get_pairs (chain_id pair_id : String) (o : HttpOutcome) : DexResult :=
  if chain_id = "" ∨ pair_id = "" then
    { outcome := .error (.toolError (.valueError "Both chain_id and pair_id are required"))
      requests := [] }
  else
    { outcome := toolWrap (fetchPairsList o "pairs")
      requests := [⟨dexBaseUrl ++ "/latest/dex/pairs/" ++ chain_id ++ "/" ++ pair_id, []⟩] }

/-- `DexScreenAPI.get_pairs_by_chain_and_address` (dexscreen_api.py lines
110–118); the raised `ValueError` is not wrapped here. -/
def api_get_pairs_by_chain_and_address (chain_id pair_id : String)
    (o : HttpOutcome) : DexResult :=
  if chain_id = "" ∨ pair_id = "" then
    { outcome := .error (.valueError "Both chain_id and pair_id are required")
      requests := [] }
  else
    { outcome := fetchPairsList o "pairs"
      requests := [⟨dexBaseUrl ++ "/latest/dex/pairs/" ++ chain_id ++ "/" ++ pair_id, []⟩] }

/-- `DexScreenAPI.get_pairs_by_token_addresses` (dexscreen_api.py lines
120–135). -/
def api_get_pairs_by_token_addresses (token_addresses : String)
    (o : HttpOutcome) : DexResult :=
  if token_addresses = "" then
    { outcome := .error (.valueError "Token addresses are required")
      requests := [] }
  else
    let addresses_list := cleanAddresses token_addresses
    if 30 < addresses_list.length then
      { outcome := .error (.valueError "Maximum of 30 token addresses allowed")
        requests := [] }
    else
      { outcome := fetchPairsList o "pairs"
        requests := [⟨dexBaseUrl ++ "/latest/dex/tokens/" ++ pyjoin "," addresses_list, []⟩] }

/-! ## `get_kline` time-bound conversion (`client.py`, lines 270–300) -/

/-- Python `int(x)` truncation toward zero of a float value. -/
def pytruncRat (q : Rat) : Int := Int.tdiv q.num (q.den : Int)

/-- `get_kline` (client.py lines 270–300): the endpoint and the params dict
it passes to `_make_request`, after converting any `datetime` bound with
`int(t.timestamp())`. -/
def get_kline_request (token_address resolution : String)
    (from_time to_time : PyVal) : String × List (String × PyVal) :=
  let conv : PyVal → PyVal := fun t =>
    match t with
    | .dt ts => .int (pytruncRat ts)
    | v => v
  ("/api/v1/token_kline/sol/" ++ token_address,
   [("resolution", .str resolution), ("from", conv from_time), ("to", conv to_time)])

/-- Membership in Python type `Union[int, datetime, None]` — the typed
signature of `get_kline`'s time bounds (default `None`). -/
def isTimeArg : PyVal → Bool
  | .int _ => true
  | .dt _ => true
  | .none => true
  | _ => false

/-- An integer or `None`. -/
def isIntOrNone : PyVal → Bool
  | .int _ => true
  | .none => true
  | _ => false

/-! ## Markdown report assembler (`client.py`, lines 341–556 and 661–817) -/

/-- Python `str(float)` rendering, approximated on rationals (integral
values render as `n.0`; no claimed execution path interpolates a
non-integral float with `str`). -/
def pyFloatStr (q : Rat) : String :=
  if q.den = 1 then toString q.num ++ ".0"
  else toString q.num ++ "/" ++ toString q.den

/-- Python `str()` / f-string conversion for the value shapes the report
formatters interpolate.  Lists, dicts and datetimes get fixed placeholders —
no claimed path interpolates one. -/
def pyStr : PyVal → String
  | .none => "None"
  | .bool b => if b then "True" else "False"
  | .int n => toString n
  | .float q => pyFloatStr q
  | .str s => s
  | .list _ => "[list]"
  | .dict _ => "[dict]"
  | .dt _ => "[datetime]"

/-- `d.get(k, default)` rendered with `pyStr` (the f-string idiom of all the
`_format_*` helpers). -/
def gets (d : List (String × PyVal)) (k : String) (dflt : PyVal) : String :=
  pyStr (dget d k dflt)

/-- Attribute access expecting a dict (`.get` on a non-dict raises). -/
def asDict : PyVal → Except String (List (String × PyVal))
  | .dict d => .ok d
  | _ => .error "AttributeError"

/-- A value expected to be a string (`.upper()`, slicing on a non-string
raises). -/
def asStr : PyVal → Except String String
  | .str s => .ok s
  | _ => .error "AttributeError"

/-- A value expected to be a list. -/
def asList : PyVal → Except String (List PyVal)
  | .list xs => .ok xs
  | _ => .error "TypeError"

/-- Elements of a list that `str.join` concatenates must all be strings. -/
def asStrList (xs : List PyVal) : Except String (List String) :=
  xs.mapM asStr

/-- Digit-list accumulator for Python numeric string parsing. -/
def digitsToNatAux : List Char → Nat → Option Nat
  | [], acc => some acc
  | c :: rest, acc =>
    if c.isDigit then digitsToNatAux rest (acc * 10 + (c.toNat - 48))
    else Option.none

/-- Python `float(string)`: optional sign, digits with an optional decimal
point (scientific notation is not modelled — no claim depends on it). -/
def pyParseFloat (s : String) : Option Rat :=
  let cs := (pystrip s).data
  let signed : Rat × List Char :=
    match cs with
    | '-' :: t => (-1, t)
    | '+' :: t => (1, t)
    | t => (1, t)
  match pysplitChar '.' signed.2 with
  | [ip] =>
    if ip.isEmpty then Option.none
    else (digitsToNatAux ip 0).map fun n => signed.1 * (n : Rat)
  | [ip, fp] =>
    if ip.isEmpty && fp.isEmpty then Option.none
    else
      match digitsToNatAux ip 0, digitsToNatAux fp 0 with
      | some n, some f =>
        some (signed.1 * ((n : Rat) + (f : Rat) / (10 : Rat) ^ fp.length))
      | _, _ => Option.none
  | _ => Option.none

/-- Python `int(string)`: optional sign and digits only. -/
def pyParseInt (s : String) : Option Int :=
  let cs := (pystrip s).data
  let signed : Int × List Char :=
    match cs with
    | '-' :: t => (-1, t)
    | '+' :: t => (1, t)
    | t => (1, t)
  if signed.2.isEmpty then Option.none
  else (digitsToNatAux signed.2 0).map fun n => signed.1 * (n : Int)

/-- `Int` to `Rat` conversion (via the reducible `Nat` cast; Mathlib's
`IntCast` instance does not evaluate definitionally). -/
def ratOfInt : Int → Rat
  | .ofNat m => (m : Rat)
  | .negSucc m => -(((m + 1 : Nat)) : Rat)

/-- Python `float(x)` conversion. -/
def pyfloat : PyVal → Except String Rat
  | .int n => .ok (ratOfInt n)
  | .float q => .ok q
  | .bool b => .ok (if b then 1 else 0)
  | .str s =>
    match pyParseFloat s with
    | some q => .ok q
    | Option.none => .error "ValueError"
  | _ => .error "TypeError"

/-- Python `int(x)` conversion. -/
def pyint : PyVal → Except String Int
  | .int n => .ok n
  | .float q => .ok (pytruncRat q)
  | .bool b => .ok (if b then 1 else 0)
  | .str s =>
    match pyParseInt s with
    | some n => .ok n
    | Option.none => .error "ValueError"
  | _ => .error "TypeError"

/-- `safe_float` (client.py lines 463–470): falsy values and conversion
failures yield the 0.0 default. -/
def safe_float (v : PyVal) : Rat :=
  if v.truthy = false then 0
  else
    match pyfloat v with
    | .ok q => q
    | .error _ => 0

/-- Floor of a rational (directly computable, unlike `Int.floor`). -/
def ratFloor (q : Rat) : Int := Int.fdiv q.num (q.den : Int)

/-- Python fixed-point formatting `f"{x:.pf}"`, modelled on rationals with
round-half-up (CPython rounds the underlying binary double half-to-even;
no claim depends on the rounding of a representational tie). -/
def formatFixed (q : Rat) (prec : Nat) : String :=
  let n : Int := ratFloor (q * (10 : Rat) ^ prec + 1 / 2)
  let sign := if n < 0 then "-" else ""
  let m := n.natAbs
  let ip := m / 10 ^ prec
  let fp := m % 10 ^ prec
  if prec = 0 then sign ++ toString ip
  else
    let fs := toString fp
    sign ++ toString ip ++ "." ++
      String.mk (List.replicate (prec - fs.length) '0') ++ fs

/-- Python fixed-point formatting with an explicit sign, `f"{x:+.pf}"`. -/
def formatFixedSigned (q : Rat) (prec : Nat) : String :=
  let n : Int := ratFloor (q * (10 : Rat) ^ prec + 1 / 2)
  if n < 0 then formatFixed q prec else "+" ++ formatFixed q prec

/-- Python `s.upper()` (ASCII). -/
def pyupper (s : String) : String := String.mk (s.data.map Char.toUpper)

/-- Python string slice `s[:n]`. -/
def pytake (s : String) (n : Nat) : String := String.mk (s.data.take n)

/-- Python `v == 1` with numeric cross-type equality. -/
def pyEqInt (v : PyVal) (n : Int) : Bool :=
  match v with
  | .int m => m == n
  | .float q => q == ratOfInt n
  | .bool b => (if b then (1 : Int) else 0) == n
  | _ => false

/-- Two-digit zero padding for time rendering. -/
def pad2 (n : Nat) : String := if n < 10 then "0" ++ toString n else toString n

/-- Civil date (year, month, day) from days since 1970-01-01 (the standard
era-based algorithm), used to model `strftime`. -/
def civilFromDays (z : Int) : Int × Nat × Nat :=
  let z' := z + 719468
  let era := Int.fdiv z' 146097
  let doe := (z' - era * 146097).toNat
  let yoe := (doe - doe / 1460 + doe / 36524 - doe / 146096) / 365
  let doy := doe - (365 * yoe + yoe / 4 - yoe / 100)
  let mp := (5 * doy + 2) / 153
  let d := doy - (153 * mp + 2) / 5 + 1
  let m := if mp < 10 then mp + 3 else mp - 9
  (era * 400 + yoe + (if m ≤ 2 then 1 else 0), m, d)

/-- `dt.strftime("%Y-%m-%d %H:%M:%S")` for a Unix timestamp (the Python
code renders local time; modelled as UTC — no claim depends on the
timezone). -/
def strftimeYmdHms (ts : Int) : String :=
  let days := Int.fdiv ts 86400
  let secs := (Int.emod ts 86400).toNat
  let c := civilFromDays days
  toString c.1 ++ "-" ++ pad2 c.2.1 ++ "-" ++ pad2 c.2.2 ++ " " ++
    pad2 (secs / 3600) ++ ":" ++ pad2 (secs % 3600 / 60) ++ ":" ++ pad2 (secs % 60)

/-- `_format_time` (client.py lines 538–555); `now` is
`datetime.now().timestamp()`. -/
def format_time (now : Int) (timestamp : Int) (format : String) : String :=
  if timestamp = 0 then "N/A"
  else
    let dt := timestamp
    if format = "R" then
      let diff := now - dt
      let days := Int.fdiv diff 86400
      let seconds := (Int.emod diff 86400).toNat
      if 0 < days then toString days ++ " days ago"
      else
        let hours := seconds / 3600
        if 0 < hours then toString hours ++ " hours ago"
        else
          let minutes := seconds % 3600 / 60
          if 0 < minutes then toString minutes ++ " minutes ago"
          else "just now"
    else strftimeYmdHms dt

/-- `_format_token_info` (client.py lines 341–356). -/
def format_token_info (v : PyVal) : Except String String := do
  let d ← asDict v
  pure ("### Basic Token Information" ++
    "\n- **Symbol**: " ++ gets d "symbol" (.str "N/A") ++
    "\n- **Name**: " ++ gets d "name" (.str "N/A") ++
    "\n- **Address**: " ++ gets d "address" (.str "N/A") ++
    "\n- **Decimals**: " ++ gets d "decimals" (.str "N/A") ++
    "\n- **Logo**: " ++ gets d "logo" (.str "N/A") ++
    "\n- **Biggest Pool**: " ++ gets d "biggest_pool_address" (.str "N/A") ++
    "\n- **Open Timestamp**: <t:" ++ gets d "open_timestamp" (.int 0) ++ ":F>" ++
    "\n- **Creation Timestamp**: <t:" ++ gets d "creation_timestamp" (.int 0) ++ ":F>" ++
    "\n- **Holder Count**: " ++ gets d "holder_count" (.str "N/A") ++
    "\n- **Circulating Supply**: " ++ gets d "circulating_supply" (.str "N/A") ++
    "\n- **Total Supply**: " ++ gets d "total_supply" (.str "N/A") ++
    "\n- **Max Supply**: " ++ gets d "max_supply" (.str "N/A") ++
    "\n- **Liquidity**: " ++ gets d "liquidity" (.str "N/A") ++ " SOL")

/-- `_format_pool_info` (client.py lines 358–374). -/
def format_pool_info (v : PyVal) : Except String String := do
  let d ← asDict v
  pure ("### Pool Information" ++
    "\n- **Pool Address**: " ++ gets d "pool_address" (.str "N/A") ++
    "\n- **Quote Token**: " ++ gets d "quote_symbol" (.str "N/A") ++
      " (" ++ gets d "quote_address" (.str "N/A") ++ ")" ++
    "\n- **Current Liquidity**: " ++ gets d "liquidity" (.str "N/A") ++ " SOL" ++
    "\n- **Initial Liquidity**: " ++ gets d "initial_liquidity" (.str "N/A") ++ " SOL" ++
    "\n- **Base Reserve**: " ++ gets d "base_reserve" (.str "N/A") ++
    "\n- **Quote Reserve**: " ++ gets d "quote_reserve" (.str "N/A") ++
    "\n- **Initial Base Reserve**: " ++ gets d "initial_base_reserve" (.str "N/A") ++
    "\n- **Initial Quote Reserve**: " ++ gets d "initial_quote_reserve" (.str "N/A") ++
    "\n- **Creation Time**: <t:" ++ gets d "creation_timestamp" (.int 0) ++ ":F>" ++
    "\n- **Base Reserve Value**: " ++ gets d "base_reserve_value" (.str "N/A") ++
    "\n- **Quote Reserve Value**: " ++ gets d "quote_reserve_value" (.str "N/A") ++
    "\n- **Quote Vault**: " ++ gets d "quote_vault_address" (.str "N/A") ++
    "\n- **Base Vault**: " ++ gets d "base_vault_address" (.str "N/A") ++
    "\n- **Creator**: " ++ gets d "creator" (.str "N/A"))

/-- `_format_stats` (client.py lines 376–388). -/
def format_stats (v : PyVal) : Except String String := do
  let d ← asDict v
  pure ("### Trading Statistics" ++
    "\n- **Signal Count**: " ++ gets d "signal_count" (.int 0) ++
    "\n- **Degen Call Count**: " ++ gets d "degen_call_count" (.int 0) ++
    "\n- **Top Rat Trader Count**: " ++ gets d "top_rat_trader_count" (.int 0) ++
    "\n- **Smart Degen Count**: " ++ gets d "top_smart_degen_count" (.int 0) ++
    "\n- **Fresh Wallet Count**: " ++ gets d "top_fresh_wallet_count" (.int 0) ++
    "\n- **Rat Trader Amount %**: " ++ gets d "top_rat_trader_amount_percentage" (.int 0) ++ "%" ++
    "\n- **Smart Degen Trader Count**: " ++ gets d "top_trader_smart_degen_count" (.int 0) ++
    "\n- **Fresh Wallet Trader Count**: " ++ gets d "top_trader_fresh_wallet_count" (.int 0) ++
    "\n- **Bluechip Owner Count**: " ++ gets d "bluechip_owner_count" (.int 0) ++
    "\n- **Bluechip Owner %**: " ++ gets d "bluechip_owner_percentage" (.int 0) ++ "%")

/-- `_format_dev_info` (client.py lines 390–402).  A non-list (and
non-falsy) history value is modelled as a join error. -/
def format_dev_info (v : PyVal) : Except String String := do
  let d ← asDict v
  let hist := dget d "twitter_name_change_history" (.list [])
  let hist2 := if hist.truthy then hist else .list [.str "No changes"]
  let parts ← asList hist2
  let strs ← asStrList parts
  let twitter_history := pyjoin "\n  " strs
  pure ("### Developer Information" ++
    "\n- **Creator Address**: " ++ gets d "creator_address" (.str "N/A") ++
    "\n- **Creator Balance**: " ++ gets d "creator_token_balance" (.str "N/A") ++
    "\n- **Creator Status**: " ++ gets d "creator_token_status" (.str "N/A") ++
    "\n- **Top 10 Holder Rate**: " ++ gets d "top_10_holder_rate" (.str "N/A") ++
    "\n- **DexScr Ad**: " ++ gets d "dexscr_ad" (.int 0) ++
    "\n- **DexScr Update Link**: " ++ gets d "dexscr_update_link" (.int 0) ++
    "\n- **CTO Flag**: " ++ gets d "cto_flag" (.int 0) ++
    "\n- **Twitter Name History**:\n  " ++ twitter_history)

/-- `_format_security_info` (client.py lines 404–414); the emoji literals
are the file's own (mojibake) characters. -/
def format_security_info (v : PyVal) : Except String String := do
  let d ← asDict v
  pure ("### Security Information" ++
    "\n- **Alert Status**: " ++
      (if (dget d "is_show_alert" .none).truthy then "âš ï¸ Warning"
       else "âœ… Safe") ++
    "\n- **Top 10 Holder Rate**: " ++ gets d "top_10_holder_rate" (.str "N/A") ++
    "\n- **Mint Authority Renounced**: " ++
      (if (dget d "renounced_mint" .none).truthy then "âœ… Yes"
       else "âŒ No") ++
    "\n- **Freeze Authority Renounced**: " ++
      (if (dget d "renounced_freeze_account" .none).truthy then "âœ… Yes"
       else "âŒ No") ++
    "\n- **Burn Ratio**: " ++ gets d "burn_ratio" (.str "N/A") ++
    "\n- **Burn Status**: " ++ gets d "burn_status" (.str "N/A") ++
    "\n- **Dev Token Burn Amount**: " ++ gets d "dev_token_burn_amount" (.str "N/A") ++
    "\n- **Dev Token Burn Ratio**: " ++ gets d "dev_token_burn_ratio" (.str "N/A"))

/-- `_format_launchpad_info` (client.py lines 416–422). -/
def format_launchpad_info (v : PyVal) : Except String String := do
  let d ← asDict v
  let prog ← pyfloat (dget d "launchpad_progress" (.int 0))
  pure ("### Launchpad Information" ++
    "\n- **Platform**: " ++ gets d "launchpad" (.str "N/A") ++
    "\n- **Status**: " ++ gets d "launchpad_status" (.str "N/A") ++
    "\n- **Progress**: " ++ formatFixed (prog * 100) 2 ++ "%" ++
    "\n- **Description**: " ++ gets d "description" (.str "N/A"))

/-- `_format_links` (client.py lines 424–443). -/
def format_links (v : PyVal) : Except String String := do
  let d ← asDict v
  pure ("### Token Links" ++
    "\n- **GMGN**: " ++ gets d "gmgn" (.str "N/A") ++
    "\n- **GeckoTerminal**: " ++ gets d "geckoterminal" (.str "N/A") ++
    "\n- **Website**: " ++ gets d "website" (.str "N/A") ++
    "\n- **Twitter**: " ++ gets d "twitter_username" (.str "N/A") ++
    "\n- **Telegram**: " ++ gets d "telegram" (.str "N/A") ++
    "\n- **Discord**: " ++ gets d "discord" (.str "N/A") ++
    "\n- **GitHub**: " ++ gets d "github" (.str "N/A") ++
    "\n- **Medium**: " ++ gets d "medium" (.str "N/A") ++
    "\n- **Reddit**: " ++ gets d "reddit" (.str "N/A") ++
    "\n- **YouTube**: " ++ gets d "youtube" (.str "N/A") ++
    "\n- **TikTok**: " ++ gets d "tiktok" (.str "N/A") ++
    "\n- **Instagram**: " ++ gets d "instagram" (.str "N/A") ++
    "\n- **LinkedIn**: " ++ gets d "linkedin" (.str "N/A") ++
    "\n- **Facebook**: " ++ gets d "facebook" (.str "N/A") ++
    "\n- **BitBucket**: " ++ gets d "bitbucket" (.str "N/A") ++
    "\n- **Description**: " ++ gets d "description" (.str "N/A") ++
    "\n- **Verification Status**: " ++
      (if pyEqInt (dget d "verify_status" .none) 1 then "âœ… Verified"
       else "âŒ Unverified"))

/-- `_format_wallet_analysis` (client.py lines 445–456). -/
def format_wallet_analysis (v : PyVal) : Except String String := do
  let d ← asDict v
  pure ("### Wallet Analysis" ++
    "\n- **Smart Wallets**: " ++ gets d "smart_wallets" (.int 0) ++
    "\n- **Fresh Wallets**: " ++ gets d "fresh_wallets" (.int 0) ++
    "\n- **Renowned Wallets**: " ++ gets d "renowned_wallets" (.int 0) ++
    "\n- **Creator Wallets**: " ++ gets d "creator_wallets" (.int 0) ++
    "\n- **Sniper Wallets**: " ++ gets d "sniper_wallets" (.int 0) ++
    "\n- **Rat Trader Wallets**: " ++ gets d "rat_trader_wallets" (.int 0) ++
    "\n- **Following Wallets**: " ++ gets d "following_wallets" (.int 0) ++
    "\n- **Whale Wallets**: " ++ gets d "whale_wallets" (.int 0) ++
    "\n- **Top Wallets**: " ++ gets d "top_wallets" (.int 0))

/-- One iteration of the trade loop in `_format_recent_trades` (client.py
lines 473–497); an error models the per-trade `except ... continue`. -/
def format_one_trade (t : PyVal) : Except String String := do
  let trade ← asDict t
  let timestamp := dget trade "timestamp" (.int 0)
  let amount_usd := safe_float (dget trade "amount_usd" .none)
  let price_usd := safe_float (dget trade "price_usd" .none)
  let event ← asStr (dget trade "event" (.str "unknown"))
  let maker ← asStr (dget trade "maker" (.str ""))
  let base_amount := safe_float (dget trade "base_amount" .none)
  let quote_amount := safe_float (dget trade "quote_amount" .none)
  let quote_symbol := dget trade "quote_symbol" (.str "SOL")
  let maker_tags ← asList (dget trade "maker_tags" (.list []))
  let token_tags ← asList (dget trade "maker_token_tags" (.list []))
  let kept := (maker_tags ++ token_tags).filter fun x => x.truthy
  let tagStrs ← asStrList kept
  let joined := pyjoin ", " tagStrs
  let tags := if joined = "" then "No tags" else joined
  pure ("- **" ++ pyupper event ++ "** by `" ++ pytake maker 8 ++ "...`" ++
    "\n  - Time: <t:" ++ pyStr timestamp ++ ":R>" ++
    "\n  - Amount: $" ++ formatFixed amount_usd 2 ++
      " (" ++ formatFixed base_amount 2 ++ " tokens for " ++
      formatFixed quote_amount 6 ++ " " ++ pyStr quote_symbol ++ ")" ++
    "\n  - Price: $" ++ formatFixed price_usd 6 ++ " per token" ++
    "\n  - Tags: " ++ tags)

/-- `_format_recent_trades` (client.py lines 458–499).  A truthy non-list
`trades` value is modelled as an error (the assembler only ever passes a
list or `[]`). -/
def format_recent_trades (trades : PyVal) : Except String String :=
  if trades.truthy = false then .ok "### Recent Trades\nNo recent trades found."
  else
    match trades with
    | .list xs =>
      let entries := (xs.take 10).filterMap fun t => (format_one_trade t).toOption
      .ok (pyjoin "\n" ("### Recent Trades" :: entries))
    | _ => .error "TypeError"

/-- `_format_rug_analysis` (client.py lines 501–517). -/
def format_rug_analysis (v : PyVal) : Except String String :=
  if v.truthy = false then .ok "### Risk Assessment\nNo rug analysis data available."
  else do
    let d ← asDict v
    let rugQuotient := dget d "rug_ratio" .none
    let holder_rugged := dget d "holder_rugged_num" .none
    let holder_total := dget d "holder_token_num" .none
    if rugQuotient.isNone then
      pure "### Risk Assessment\nâœ… No signs of rug pull detected."
    else
      pure ("### Risk Assessment" ++
        "\n- **Rug Pull Ratio**: " ++ pyStr rugQuotient ++
        "\n- **Affected Holders**: " ++ pyStr holder_rugged ++ "/" ++ pyStr holder_total ++
        "\n- **Token Name**: " ++ gets d "name" (.str "N/A") ++
        "\n- **Symbol**: " ++ gets d "symbol" (.str "N/A"))

/-- `_format_top_buyers` (client.py lines 519–536). -/
def format_top_buyers (v : PyVal) : Except String String :=
  if v.truthy = false then .ok "### Top Buyers Analysis\nNo top buyers data available."
  else
    match v with
    | .dict d =>
      if (d.lookup "holders").isSome = false then
        .ok "### Top Buyers Analysis\nNo top buyers data available."
      else do
        let holders ← asDict (dget d "holders" (.dict []))
        let status ← asDict (dget holders "statusNow" (.dict []))
        pure ("### Top Buyers Analysis" ++
          "\n- **Total Holders**: " ++ gets holders "holder_count" (.int 0) ++
          "\n- **Current Status**:" ++
          "\n  - Still Holding: " ++ gets status "hold" (.int 0) ++
          "\n  - Bought More: " ++ gets status "bought_more" (.int 0) ++
          "\n  - Partially Sold: " ++ gets status "sold_part" (.int 0) ++
          "\n  - Fully Sold: " ++ gets status "sold" (.int 0) ++
          "\n  - Buy Rate: " ++ gets status "bought_rate" (.str "N/A") ++
          "\n  - Holding Rate: " ++ gets status "holding_rate" (.str "N/A") ++
          "\n  - Top 10 Holder Rate: " ++ gets status "top_10_holder_rate" (.str "N/A"))
    | _ => .error "TypeError"

/-- Checked division: Python `/` raises `ZeroDivisionError` on a zero
denominator. -/
def pydiv (a b : Rat) : Except String Rat :=
  if b = 0 then .error "ZeroDivisionError" else .ok (a / b)

/-- One iteration of the candle-conversion loop of `_format_kline_data`
(client.py lines 673–682): candles missing one of the six keys are skipped
(`none`); conversion failures raise into the surrounding `try`. -/
def processCandle (c : PyVal) : Except String (Option Candle) :=
  match c with
  | .dict d =>
    if (["time", "open", "high", "low", "close", "volume"].all
        fun k => (d.lookup k).isSome) then do
      let t ← pyint (dget d "time" .none)
      let o ← pyfloat (dget d "open" .none)
      let h ← pyfloat (dget d "high" .none)
      let l ← pyfloat (dget d "low" .none)
      let cl ← pyfloat (dget d "close" .none)
      let vol ← pyfloat (dget d "volume" .none)
      pure (some ⟨Int.tdiv t 1000, o, h, l, cl, vol⟩)
    else pure Option.none
  | _ => .error "TypeError"

/-- A default candle for the guarded non-empty `[0]` / `[-1]` accesses. -/
def zeroCandle : Candle := ⟨0, 0, 0, 0, 0, 0⟩

/-- The `try` body of `_format_kline_data` (client.py lines 670–751); any
error is turned into the error placeholder by `format_kline_data`.  `now`
models `datetime.now()`. -/
def format_kline_body (now : Int) (candles : List PyVal) (timeframe : String) :
    Except String String := do
  let processedOpt ← candles.mapM processCandle
  let processed_candles := processedOpt.filterMap id
  if processed_candles.isEmpty then
    pure ("### Price Chart Analysis (" ++ timeframe ++ ")\nInvalid candle data format.")
  else do
    let current_price := (processed_candles.getLastD zeroCandle).close
    let open_price := (processed_candles.headD zeroCandle).open_
    let highest_price := pymax (processed_candles.map (·.high))
    let lowest_price := pymin (processed_candles.map (·.low))
    let total_volume := (processed_candles.map (·.volume)).sum
    let ind ← match calculate_technical_indicators processed_candles with
      | some i => pure i
      | Option.none => Except.error "KeyError"
    let price_change ← do
      let r ← pydiv (current_price - open_price) open_price
      pure (r * 100)
    let up_candles := (processed_candles.filter fun c => c.open_ < c.close).length
    let down_candles := (processed_candles.filter fun c => c.close < c.open_).length
    let total_candles := processed_candles.length
    let upPct ← pydiv (up_candles : Rat) (total_candles : Rat)
    let downPct ← pydiv (down_candles : Rat) (total_candles : Rat)
    let spread ← pydiv (highest_price - lowest_price) lowest_price
    let avgVolume ← pydiv total_volume (total_candles : Rat)
    let header :=
      "### Price Chart Analysis (" ++ timeframe ++ ")" ++
      "\n#### Key Metrics" ++
      "\n- **Current Price**: $" ++ formatFixed current_price 6 ++
        " (" ++ format_time now (processed_candles.getLastD zeroCandle).time "R" ++ ")" ++
      "\n- **Period Open**: $" ++ formatFixed open_price 6 ++
        " (" ++ format_time now (processed_candles.headD zeroCandle).time "R" ++ ")" ++
      "\n- **Price Change**: " ++ formatFixedSigned price_change 2 ++ "%" ++
      "\n- **Highest Price**: $" ++ formatFixed highest_price 6 ++
      "\n- **Lowest Price**: $" ++ formatFixed lowest_price 6 ++
      "\n- **Total Volume**: $" ++ formatFixed total_volume 2 ++
      "\n\n#### Technical Analysis" ++
      "\n- **Trend Direction**: " ++ ind.trend ++
      "\n- **RSI (14)**: " ++ formatFixed ind.rsi 2 ++ " (" ++
        (if 70 < ind.rsi then "Overbought"
         else if ind.rsi < 30 then "Oversold" else "Neutral") ++ ")" ++
      "\n- **Identified Patterns**: " ++
        (if ind.patterns.isEmpty then "No clear patterns"
         else pyjoin ", " ind.patterns) ++
      "\n\n#### Support & Resistance" ++
      "\n- **Key Support Levels**: " ++
        pyjoin ", " ((ind.support_levels.take 3).map fun s => "$" ++ formatFixed s 6) ++
      "\n- **Key Resistance Levels**: " ++
        pyjoin ", " ((ind.resistance_levels.take 3).map fun r => "$" ++ formatFixed r 6) ++
      "\n\n#### Fibonacci Retracement Levels" ++
      "\n- **23.6%**: $" ++ formatFixed ind.fibonacci_levels.f236 6 ++
      "\n- **38.2%**: $" ++ formatFixed ind.fibonacci_levels.f382 6 ++
      "\n- **50.0%**: $" ++ formatFixed ind.fibonacci_levels.f500 6 ++
      "\n- **61.8%**: $" ++ formatFixed ind.fibonacci_levels.f618 6 ++
      "\n- **78.6%**: $" ++ formatFixed ind.fibonacci_levels.f786 6 ++
      "\n\n#### Market Analysis" ++
      "\n- **Time Period**: " ++ format_time now (processed_candles.headD zeroCandle).time "F" ++
        " to " ++ format_time now (processed_candles.getLastD zeroCandle).time "F" ++
      "\n- **Number of Candles**: " ++ toString total_candles ++
      "\n- **Upward Movements**: " ++ toString up_candles ++
        " (" ++ formatFixed (upPct * 100) 1 ++ "%)" ++
      "\n- **Downward Movements**: " ++ toString down_candles ++
        " (" ++ formatFixed (downPct * 100) 1 ++ "%)" ++
      "\n\n#### Price Volatility" ++
      "\n- **Price Range**: $" ++ formatFixed (highest_price - lowest_price) 6 ++
      "\n- **High-Low Spread**: " ++ formatFixed (spread * 100) 2 ++ "%" ++
      "\n- **Average Volume**: $" ++ formatFixed avgVolume 2 ++
      "\n\n#### OHLC Data" ++
      "\nTime | Open | High | Low | Close | Volume | Type" ++
      "\n-----|------|------|-----|--------|---------|------\n"
    let rows := processed_candles.map fun c =>
      format_time now c.time "F" ++ " | $" ++ formatFixed c.open_ 6 ++
        " | $" ++ formatFixed c.high 6 ++ " | $" ++ formatFixed c.low 6 ++
        " | $" ++ formatFixed c.close 6 ++ " | " ++ formatFixed c.volume 2 ++
        " | " ++ (if c.open_ ≤ c.close then "ðŸŸ¢" else "ðŸ”´") ++ "\n"
    pure (header ++ pyjoin "" rows)

/-- `_format_kline_data` (client.py lines 661–755).  An error is only
possible for a truthy non-dict input (whose `in`/`.get` would raise outside
the `try`); a truthy non-list `"list"` entry is folded into the in-`try`
error placeholder. -/
def format_kline_data (now : Int) (kline_data : PyVal) (timeframe : String) :
    Except String String :=
  if kline_data.truthy = false then
    .ok ("### Price Chart Analysis (" ++ timeframe ++ ")\nNo price data available.")
  else
    match kline_data with
    | .dict d =>
      if (d.lookup "list").isSome = false then
        .ok ("### Price Chart Analysis (" ++ timeframe ++ ")\nNo price data available.")
      else
        let candles := dget d "list" (.list [])
        if candles.truthy = false then
          .ok ("### Price Chart Analysis (" ++ timeframe ++ ")\nNo candlestick data available.")
        else
          let body := match candles with
            | .list cs => format_kline_body now cs timeframe
            | _ => .error "TypeError"
          match body with
          | .ok s => .ok s
          | .error _ =>
            .ok ("### Price Chart Analysis (" ++ timeframe ++ ")\nError processing price data.")
    | _ => .error "TypeError"

/-- A per-task outcome as captured by
`asyncio.gather(*tasks, return_exceptions=True)`: a raised exception or the
returned value.  Tasks returning pydantic model objects rather than dicts
(`get_token_stats`, `get_tag_wallet_count`) are modelled as non-dict
values, which the extraction maps to `{}` just as `isinstance(result, dict)`
does. -/
inductive FetchResult where
  | exc
  | val (v : PyVal)

/-- `result.get('data', {}) if isinstance(result, dict) else {}`
(client.py lines 791–796). -/
def extractData : FetchResult → PyVal
  | .val (.dict d) => dget d "data" (.dict [])
  | _ => .dict []

/-- The `sections` list of `get_all_token_info_for_markdown` (client.py
lines 798–815), built from the thirteen gathered task results in task
order; `now` models `datetime.now()`. -/
def get_all_token_info_sections (now : Int) (results : List FetchResult) :
    Except String (List String) :=
  match results with
  | [r_info, r_pool, r_stats, r_dev, r_security, r_launchpad, r_links,
     r_wallet, r_buyers, r_rug, r_trades, r_kline5m, r_kline4h] => do
    let token_info := extractData r_info
    let tid ← asDict token_info
    let header := "# Token Analysis Report for " ++
      gets tid "symbol" (.str "Unknown Token")
    let s_token ← format_token_info token_info
    let s_pool ← format_pool_info (extractData r_pool)
    let s_security ← format_security_info (extractData r_security)
    let s_dev ← format_dev_info (extractData r_dev)
    let s_stats ← format_stats (extractData r_stats)
    let s_wallet ← format_wallet_analysis (extractData r_wallet)
    let s_launchpad ← format_launchpad_info (extractData r_launchpad)
    let s_links ← format_links (extractData r_links)
    let s_kline5m ← format_kline_data now (extractData r_kline5m) "5m"
    let s_kline4h ← format_kline_data now (extractData r_kline4h) "4h"
    let thd ← asDict (extractData r_trades)
    let s_trades ← format_recent_trades (dget thd "history" (.list []))
    let s_rug ← format_rug_analysis (extractData r_rug)
    let s_buyers ← format_top_buyers (extractData r_buyers)
    pure [header, s_token, s_pool, s_security, s_dev, s_stats, s_wallet,
      s_launchpad, s_links, "## Short-term Analysis (5m)", s_kline5m,
      "## Long-term Analysis (4h)", s_kline4h, s_trades, s_rug, s_buyers]
  | _ => .error "ValueError"

/-- `get_all_token_info_for_markdown`'s final `"\n\n".join(sections)`
(client.py line 817). -/
def get_all_token_info_for_markdown (now : Int) (results : List FetchResult) :
    Except String String :=
  (get_all_token_info_sections now results).map (pyjoin "\n\n")

/-- The sixteen entries of the `sections` list when every fetched input is
absent: every fixed section is present and shows only its explicit no-data
placeholders. -/
def emptyReportSections : List String :=
  ["# Token Analysis Report for Unknown Token",
   "### Basic Token Information\n- **Symbol**: N/A\n- **Name**: N/A\n- **Address**: N/A\n- **Decimals**: N/A\n- **Logo**: N/A\n- **Biggest Pool**: N/A\n- **Open Timestamp**: <t:0:F>\n- **Creation Timestamp**: <t:0:F>\n- **Holder Count**: N/A\n- **Circulating Supply**: N/A\n- **Total Supply**: N/A\n- **Max Supply**: N/A\n- **Liquidity**: N/A SOL",
   "### Pool Information\n- **Pool Address**: N/A\n- **Quote Token**: N/A (N/A)\n- **Current Liquidity**: N/A SOL\n- **Initial Liquidity**: N/A SOL\n- **Base Reserve**: N/A\n- **Quote Reserve**: N/A\n- **Initial Base Reserve**: N/A\n- **Initial Quote Reserve**: N/A\n- **Creation Time**: <t:0:F>\n- **Base Reserve Value**: N/A\n- **Quote Reserve Value**: N/A\n- **Quote Vault**: N/A\n- **Base Vault**: N/A\n- **Creator**: N/A",
   "### Security Information\n- **Alert Status**: âœ… Safe\n- **Top 10 Holder Rate**: N/A\n- **Mint Authority Renounced**: âŒ No\n- **Freeze Authority Renounced**: âŒ No\n- **Burn Ratio**: N/A\n- **Burn Status**: N/A\n- **Dev Token Burn Amount**: N/A\n- **Dev Token Burn Ratio**: N/A",
   "### Developer Information\n- **Creator Address**: N/A\n- **Creator Balance**: N/A\n- **Creator Status**: N/A\n- **Top 10 Holder Rate**: N/A\n- **DexScr Ad**: 0\n- **DexScr Update Link**: 0\n- **CTO Flag**: 0\n- **Twitter Name History**:\n  No changes",
   "### Trading Statistics\n- **Signal Count**: 0\n- **Degen Call Count**: 0\n- **Top Rat Trader Count**: 0\n- **Smart Degen Count**: 0\n- **Fresh Wallet Count**: 0\n- **Rat Trader Amount %**: 0%\n- **Smart Degen Trader Count**: 0\n- **Fresh Wallet Trader Count**: 0\n- **Bluechip Owner Count**: 0\n- **Bluechip Owner %**: 0%",
   "### Wallet Analysis\n- **Smart Wallets**: 0\n- **Fresh Wallets**: 0\n- **Renowned Wallets**: 0\n- **Creator Wallets**: 0\n- **Sniper Wallets**: 0\n- **Rat Trader Wallets**: 0\n- **Following Wallets**: 0\n- **Whale Wallets**: 0\n- **Top Wallets**: 0",
   "### Launchpad Information\n- **Platform**: N/A\n- **Status**: N/A\n- **Progress**: 0.00%\n- **Description**: N/A",
   "### Token Links\n- **GMGN**: N/A\n- **GeckoTerminal**: N/A\n- **Website**: N/A\n- **Twitter**: N/A\n- **Telegram**: N/A\n- **Discord**: N/A\n- **GitHub**: N/A\n- **Medium**: N/A\n- **Reddit**: N/A\n- **YouTube**: N/A\n- **TikTok**: N/A\n- **Instagram**: N/A\n- **LinkedIn**: N/A\n- **Facebook**: N/A\n- **BitBucket**: N/A\n- **Description**: N/A\n- **Verification Status**: âŒ Unverified",
   "## Short-term Analysis (5m)",
   "### Price Chart Analysis (5m)\nNo price data available.",
   "## Long-term Analysis (4h)",
   "### Price Chart Analysis (4h)\nNo price data available.",
   "### Recent Trades\nNo recent trades found.",
   "### Risk Assessment\nNo rug analysis data available.",
   "### Top Buyers Analysis\nNo top buyers data available."]

/-! ## Concrete inputs used by counterexample / bug-exhibiting theorems -/

/-- A candle whose open/high/low/close/volume all equal `q`. -/
def flatCandle (q : Rat) : Candle := ⟨0, q, q, q, q, q⟩

/-- Eleven candles whose high series `[5,4,3,2,1,0,1,2,3,4,5]` has a
swing-point local minimum (at value 0) and no local maximum over the
5-wide window. -/
def vShapeCandles : List Candle :=
  [5, 4, 3, 2, 1, 0, 1, 2, 3, 4, 5].map flatCandle

/-- A session that already holds valid clearance cookies (witnesses). -/
def wSession : Session := ⟨[("cf_clearance", "old")], "Mozilla/5.0", true⟩

/-- A decodable HTTP-200 response with a string payload (witnesses). -/
def wOkResp : HttpResponse := ⟨200, [], true, .str "payload"⟩

/-- An HTTP-403 response (witnesses). -/
def wForbidden : HttpResponse := ⟨403, [], false, .str "denied"⟩

/-- Oracle for a run whose first direct GET succeeds (witnesses). -/
def wOracleDirectOk : Oracle := ⟨.exc, .resp wOkResp, .exc, .exc, .exc⟩

/-- Oracle for a run whose direct GET gets 403 and whose clearance refresh
fails (witnesses). -/
def wOracleForbidden : Oracle := ⟨.exc, .resp wForbidden, .exc, .exc, .resp wOkResp⟩

/-- A proxy HTTP-200 response carrying a `Zr-Set-Cookie` header (witnesses). -/
def wProxyResp : HttpResponse :=
  ⟨200, [("Zr-Set-Cookie", "cf_clearance=tok123; Path=/; Secure")], true, .str "proxied"⟩

/-- Oracle for a run whose direct GET raises and whose proxy GET returns
`wProxyResp` (witnesses). -/
def wOracleProxy : Oracle := ⟨.exc, .exc, .exc, .exc, .resp wProxyResp⟩

/-! ## Theorems -/

theorem mem_of_mem_lastN {l : List α} {k : Nat} {x : α} (h : x ∈ lastN l k) : x ∈ l :=
  List.drop_subset _ _ h

theorem rsiLosses_nonneg (prices : List Rat) : ∀ x ∈ rsiLosses prices, 0 ≤ x := by
  intro x hx
  simp only [rsiLosses, List.mem_map] at hx
  obtain ⟨d, _, rfl⟩ := hx
  split <;> linarith

theorem rsiGains_nonneg (prices : List Rat) : ∀ x ∈ rsiGains prices, 0 ≤ x := by
  intro x hx
  simp only [rsiGains, List.mem_map] at hx
  obtain ⟨d, _, rfl⟩ := hx
  split <;> linarith

theorem rsiAvgGain_nonneg (prices : List Rat) (periods : Nat) :
    0 ≤ rsiAvgGain prices periods := by
  apply div_nonneg
  · exact List.sum_nonneg fun x hx => rsiGains_nonneg prices x (mem_of_mem_lastN hx)
  · exact_mod_cast Nat.zero_le periods

theorem rsiAvgLoss_nonneg (prices : List Rat) (periods : Nat) :
    0 ≤ rsiAvgLoss prices periods := by
  apply div_nonneg
  · exact List.sum_nonneg fun x hx => rsiLosses_nonneg prices x (mem_of_mem_lastN hx)
  · exact_mod_cast Nat.zero_le periods

/-- **C8**: `calculate_rsi` always returns a value in the closed interval
`[0, 100]`, for every price series (including short series, which hit the
`return 50` default) and every period count. -/
theorem calculate_rsi_bounded (prices : List Rat) (periods : Nat) :
    0 ≤ calculate_rsi prices periods ∧ calculate_rsi prices periods ≤ 100 := by
  unfold calculate_rsi
  split
  · norm_num
  split
  · norm_num
  rename_i hlen hloss
  have hg := rsiAvgGain_nonneg prices periods
  have hl := rsiAvgLoss_nonneg prices periods
  have hlpos : 0 < rsiAvgLoss prices periods := lt_of_le_of_ne hl (Ne.symm hloss)
  have hrs : 0 ≤ rsiAvgGain prices periods / rsiAvgLoss prices periods := div_nonneg hg hl
  have h1 : (0 : Rat) < 1 + rsiAvgGain prices periods / rsiAvgLoss prices periods := by
    linarith
  have hdpos : 0 < 100 / (1 + rsiAvgGain prices periods / rsiAvgLoss prices periods) := by
    positivity
  have hdle : 100 / (1 + rsiAvgGain prices periods / rsiAvgLoss prices periods) ≤ 100 := by
    rw [div_le_iff₀ h1]
    nlinarith
  constructor <;> linarith

theorem deltasOf_cons₂ (a b : Rat) (t : List Rat) :
    deltasOf (a :: b :: t) = (b - a) :: deltasOf (b :: t) := by
  simp [deltasOf]

theorem deltasOf_pos_of_chain (prices : List Rat)
    (h : List.Chain' (· < ·) prices) : ∀ d ∈ deltasOf prices, 0 < d := by
  induction prices with
  | nil => simp [deltasOf]
  | cons a t ih =>
    cases t with
    | nil => simp [deltasOf]
    | cons b u =>
      rw [deltasOf_cons₂]
      rw [List.chain'_cons] at h
      intro d hd
      rcases List.mem_cons.mp hd with h1 | h2
      · subst h1; linarith [h.1]
      · exact ih h.2 d h2

theorem deltasOf_neg_of_chain (prices : List Rat)
    (h : List.Chain' (fun x y => y < x) prices) : ∀ d ∈ deltasOf prices, d < 0 := by
  induction prices with
  | nil => simp [deltasOf]
  | cons a t ih =>
    cases t with
    | nil => simp [deltasOf]
    | cons b u =>
      rw [deltasOf_cons₂]
      rw [List.chain'_cons] at h
      intro d hd
      rcases List.mem_cons.mp hd with h1 | h2
      · subst h1; linarith [h.1]
      · exact ih h.2 d h2

theorem rsiAvgLoss_eq_zero_of_increasing (prices : List Rat) (periods : Nat)
    (h : List.Chain' (· < ·) prices) : rsiAvgLoss prices periods = 0 := by
  unfold rsiAvgLoss
  have hz : ∀ x ∈ lastN (rsiLosses prices) periods, x = 0 := by
    intro x hx
    have hx' := mem_of_mem_lastN hx
    simp only [rsiLosses, List.mem_map] at hx'
    obtain ⟨d, hd, rfl⟩ := hx'
    have hpos := deltasOf_pos_of_chain prices h d hd
    simp [not_lt.mpr (le_of_lt hpos)]
  rw [List.sum_eq_zero hz, zero_div]

theorem rsiAvgGain_eq_zero_of_decreasing (prices : List Rat) (periods : Nat)
    (h : List.Chain' (fun x y => y < x) prices) : rsiAvgGain prices periods = 0 := by
  unfold rsiAvgGain
  have hz : ∀ x ∈ lastN (rsiGains prices) periods, x = 0 := by
    intro x hx
    have hx' := mem_of_mem_lastN hx
    simp only [rsiGains, List.mem_map] at hx'
    obtain ⟨d, hd, rfl⟩ := hx'
    have hneg := deltasOf_neg_of_chain prices h d hd
    simp [not_lt.mpr (le_of_lt hneg)]
  rw [List.sum_eq_zero hz, zero_div]

theorem length_deltasOf (prices : List Rat) :
    (deltasOf prices).length = prices.length - 1 := by
  simp [deltasOf]

theorem rsiAvgLoss_pos_of_decreasing (prices : List Rat)
    (hlen : 14 < prices.length)
    (h : List.Chain' (fun x y => y < x) prices) : 0 < rsiAvgLoss prices 14 := by
  unfold rsiAvgLoss
  apply div_pos
  · apply List.sum_pos
    · intro x hx
      have hx' := mem_of_mem_lastN hx
      simp only [rsiLosses, List.mem_map] at hx'
      obtain ⟨d, hd, rfl⟩ := hx'
      have hneg := deltasOf_neg_of_chain prices h d hd
      simp [hneg]
    · have hlenl : (rsiLosses prices).length = prices.length - 1 := by
        simp [rsiLosses, length_deltasOf]
      intro hcon
      have := congrArg List.length hcon
      simp only [lastN, List.length_drop, List.length_nil] at this
      omega
  · norm_num

/-- **C6**: for a price series with more than 14 elements, `calculate_rsi`
with the 14-period lookback returns 100 on a strictly monotonically
increasing series and 0 on a strictly monotonically decreasing series. -/
theorem calculate_rsi_monotone_extremes (prices : List Rat)
    (hlen : 14 < prices.length) :
    (List.Chain' (· < ·) prices → calculate_rsi prices 14 = 100) ∧
    (List.Chain' (fun x y => y < x) prices → calculate_rsi prices 14 = 0) := by
  constructor
  · intro hinc
    unfold calculate_rsi
    rw [if_neg (by omega)]
    rw [if_pos (rsiAvgLoss_eq_zero_of_increasing prices 14 hinc)]
  · intro hdec
    unfold calculate_rsi
    rw [if_neg (by omega)]
    have hpos := rsiAvgLoss_pos_of_decreasing prices hlen hdec
    rw [if_neg (ne_of_gt hpos)]
    rw [rsiAvgGain_eq_zero_of_decreasing prices 14 hdec, zero_div]
    norm_num

/-- Witness for **C6**: a concrete strictly increasing and a concrete
strictly decreasing 15-element price series. -/
theorem calculate_rsi_monotone_extremes_witness :
    calculate_rsi [1, 2, 3, 4, 5, 6, 7, 8, 9, 10, 11, 12, 13, 14, 15] 14 = 100 ∧
    calculate_rsi [15, 14, 13, 12, 11, 10, 9, 8, 7, 6, 5, 4, 3, 2, 1] 14 = 0 :=
  ⟨(calculate_rsi_monotone_extremes _ (by decide)).1 (by norm_num [List.chain'_cons]),
   (calculate_rsi_monotone_extremes _ (by decide)).2 (by norm_num [List.chain'_cons])⟩

/-- **C7** fails on the code: on `vShapeCandles` the computed
`resistance_levels` is `[0]`, obtained from the local **minima** of the high
series (because line 642 binds `resistances` to the whole pair returned by
`find_swing_points(highs)`, whose component 0 is the minima list), while the
set of swing-point local **maxima** of the high series — what the claim says
is reported — is empty. -/
theorem technical_indicators_resistance_is_minima_of_highs :
    (calculate_technical_indicators vShapeCandles).map
        (fun ti => ti.resistance_levels) = some [0] ∧
    pysortedset (find_swing_points (vShapeCandles.map (·.high)) 5).2 = [] ∧
    (calculate_technical_indicators vShapeCandles).map
        (fun ti => ti.support_levels) = some [0] := by
  constructor
  · decide
  constructor
  · decide
  · decide

theorem get_cf_clearance_fst (s : Session) (o : ScraperOutcome) :
    (get_cf_clearance s o).1 = clearanceOk o := by
  cases o with
  | exc => rfl
  | resp st cs ua => by_cases h : st = 200 <;> simp [get_cf_clearance, clearanceOk, h]

theorem initSession_some (s : Session) (o : Oracle)
    (hinit : s.hasValidCookies = true ∨ clearanceOk o.scraperInit = true) :
    ∃ s1, initSession s o = some s1 := by
  cases hv : s.hasValidCookies with
  | true => exact ⟨s, by simp [initSession, hv]⟩
  | false =>
    have hclr : clearanceOk o.scraperInit = true := by
      rcases hinit with h | h
      · rw [hv] at h; cases h
      · exact h
    refine ⟨(get_cf_clearance s o.scraperInit).2, ?_⟩
    simp [initSession, hv, get_cf_clearance_fst, hclr]

theorem direct_phase_first_200 (s' : Session) (o : Oracle) (r : HttpResponse)
    (h1 : o.direct1 = .resp r) (h200 : r.status = 200) (hjson : r.jsonOk = true) :
    direct_phase s' o = ⟨some r.body, s', 1, 0⟩ := by
  simp [direct_phase, h1, h200, hjson]

/-- **C2**: whenever the direct GET performed with valid clearance cookies
returns HTTP 200 (with a decodable body), `_make_request` returns that
decoded JSON body and no proxy request is issued during the call. -/
theorem make_request_direct_200_no_proxy
    (s : Session) (params : Option (List (String × PyVal))) (o : Oracle)
    (r : HttpResponse)
    (hinit : s.hasValidCookies = true ∨ clearanceOk o.scraperInit = true)
    (h1 : o.direct1 = .resp r) (h200 : r.status = 200) (hjson : r.jsonOk = true) :
    (make_request s params o).result = .ok r.body ∧
    (make_request s params o).trace.proxyCalls = 0 := by
  obtain ⟨s1, hs1⟩ := initSession_some s o hinit
  simp only [make_request, hs1, direct_phase_first_200 s1 o r h1 h200 hjson,
    make_request_core]
  exact ⟨trivial, trivial⟩

/-- Witness for **C2**: concrete session and oracle whose direct GET
returns a decodable 200. -/
theorem make_request_direct_200_no_proxy_witness :
    (make_request wSession Option.none wOracleDirectOk).result = .ok wOkResp.body ∧
    (make_request wSession Option.none wOracleDirectOk).trace.proxyCalls = 0 :=
  make_request_direct_200_no_proxy wSession Option.none wOracleDirectOk wOkResp
    (Or.inl rfl) rfl rfl rfl

theorem direct_phase_unauthorized_eq (s' : Session) (o : Oracle) (r : HttpResponse)
    (h1 : o.direct1 = .resp r) (hst : r.status = 401 ∨ r.status = 403) :
    direct_phase s' o =
      (if (get_cf_clearance s' o.scraperRefresh).1 then
        match o.direct2 with
        | .exc => ⟨Option.none, (get_cf_clearance s' o.scraperRefresh).2, 2, 1⟩
        | .resp r2 =>
          if r2.status = 200 then
            if r2.jsonOk then
              ⟨some r2.body, (get_cf_clearance s' o.scraperRefresh).2, 2, 1⟩
            else ⟨Option.none, (get_cf_clearance s' o.scraperRefresh).2, 2, 1⟩
          else ⟨Option.none, (get_cf_clearance s' o.scraperRefresh).2, 2, 1⟩
      else ⟨Option.none, (get_cf_clearance s' o.scraperRefresh).2, 1, 1⟩) := by
  have hn200 : ¬ r.status = 200 := by rcases hst with h | h <;> omega
  have h43 : r.status = 403 ∨ r.status = 401 := hst.symm
  simp only [direct_phase, h1]
  rw [if_neg hn200, if_pos h43]

theorem direct_phase_unauthorized (s' : Session) (o : Oracle) (r : HttpResponse)
    (h1 : o.direct1 = .resp r) (hst : r.status = 401 ∨ r.status = 403) :
    (direct_phase s' o).refreshCalls = 1 ∧
    (direct_phase s' o).directCalls ≤ 2 ∧
    (¬ retrySucceeded o → (direct_phase s' o).returned = Option.none) := by
  rw [direct_phase_unauthorized_eq s' o r h1 hst]
  have hfst := get_cf_clearance_fst s' o.scraperRefresh
  cases hc : clearanceOk o.scraperRefresh with
  | false =>
    rw [hfst, hc]
    simp
  | true =>
    rw [hfst, hc]
    cases hd2 : o.direct2 with
    | exc => simp
    | resp r2 =>
      by_cases h2s : r2.status = 200
      · by_cases h2j : r2.jsonOk = true
        · refine ⟨by simp [h2s, h2j], by simp [h2s, h2j], fun hn => ?_⟩
          exact absurd ⟨hc, r2, hd2, h2s, h2j⟩ hn
        · exact ⟨by simp [h2s, h2j], by simp [h2s, h2j], fun _ => by simp [h2s, h2j]⟩
      · exact ⟨by simp [h2s], by simp [h2s], fun _ => by simp [h2s]⟩

/-- **C1**: when the direct GET returns HTTP 401 or 403, exactly one
clearance-refresh attempt is made and the direct GET is retried at most
once; when the retry does not produce a decoded HTTP-200 response, the call
issues exactly one proxy request — unless the caller passed a truthy
`no_proxy` parameter, in which case `_make_request` raises the
direct-request-failed error and issues no proxy request at all. -/
theorem make_request_unauthorized_refresh_and_fallback
    (s : Session) (params : Option (List (String × PyVal))) (o : Oracle)
    (r : HttpResponse)
    (hinit : s.hasValidCookies = true ∨ clearanceOk o.scraperInit = true)
    (h1 : o.direct1 = .resp r) (hst : r.status = 401 ∨ r.status = 403) :
    (make_request s params o).trace.refreshClearanceCalls = 1 ∧
    (make_request s params o).trace.directCalls ≤ 2 ∧
    (¬ retrySucceeded o →
      (noProxyFlag params = true →
        (make_request s params o).result = .error .directRequestFailed ∧
        (make_request s params o).trace.proxyCalls = 0) ∧
      (noProxyFlag params = false →
        (make_request s params o).trace.proxyCalls = 1)) := by
  obtain ⟨s1, hs1⟩ := initSession_some s o hinit
  obtain ⟨hrc, hdc, hret⟩ := direct_phase_unauthorized s1 o r h1 hst
  rw [make_request, hs1]
  cases hdp : (direct_phase s1 o).returned with
  | some body =>
    refine ⟨?_, ?_, fun hn => absurd hdp ?_⟩
    · simp [make_request_core, hdp, hrc]
    · simp [make_request_core, hdp, hdc]
    · rw [hret hn]; simp
  | none =>
    refine ⟨?_, ?_, fun _ => ⟨fun hnp => ?_, fun hnp => ?_⟩⟩
    · cases hnpf : noProxyFlag params with
      | true => simp [make_request_core, hdp, hnpf, hrc]
      | false =>
        cases hpx : o.proxy with
        | exc => simp [make_request_core, hdp, hnpf, hpx, hrc]
        | resp pr =>
          by_cases hps : pr.status = 200
          · by_cases hpj : pr.jsonOk = true <;>
              simp [make_request_core, hdp, hnpf, hpx, hps, hpj, hrc]
          · simp [make_request_core, hdp, hnpf, hpx, hps, hrc]
    · cases hnpf : noProxyFlag params with
      | true => simp [make_request_core, hdp, hnpf, hdc]
      | false =>
        cases hpx : o.proxy with
        | exc => simp [make_request_core, hdp, hnpf, hpx, hdc]
        | resp pr =>
          by_cases hps : pr.status = 200
          · by_cases hpj : pr.jsonOk = true <;>
              simp [make_request_core, hdp, hnpf, hpx, hps, hpj, hdc]
          · simp [make_request_core, hdp, hnpf, hpx, hps, hdc]
    · exact ⟨by simp [make_request_core, hdp, hnp], by simp [make_request_core, hdp, hnp]⟩
    · cases hpx : o.proxy with
      | exc => simp [make_request_core, hdp, hnp, hpx]
      | resp pr =>
        by_cases hps : pr.status = 200
        · by_cases hpj : pr.jsonOk = true <;>
            simp [make_request_core, hdp, hnp, hpx, hps, hpj]
        · simp [make_request_core, hdp, hnp, hpx, hps]

/-- Witness for **C1**: a direct 403 whose clearance refresh fails, with no
`no_proxy` parameter. -/
theorem make_request_unauthorized_refresh_and_fallback_witness :
    (make_request wSession Option.none wOracleForbidden).trace.refreshClearanceCalls = 1 ∧
    (make_request wSession Option.none wOracleForbidden).trace.directCalls ≤ 2 ∧
    (¬ retrySucceeded wOracleForbidden →
      (noProxyFlag Option.none = true →
        (make_request wSession Option.none wOracleForbidden).result =
          .error .directRequestFailed ∧
        (make_request wSession Option.none wOracleForbidden).trace.proxyCalls = 0) ∧
      (noProxyFlag Option.none = false →
        (make_request wSession Option.none wOracleForbidden).trace.proxyCalls = 1)) :=
  make_request_unauthorized_refresh_and_fallback wSession Option.none wOracleForbidden
    wForbidden (Or.inl rfl) rfl (Or.inr rfl)

theorem update_cookies_sets (headers : List (String × String)) (s : Session)
    (n v : String) (h : zrCookie headers = some (n, v)) :
    (update_cookies_from_headers headers s).cookies.lookup n = some v := by
  unfold zrCookie at h
  unfold update_cookies_from_headers
  cases hl : headers.lookup "Zr-Set-Cookie" with
  | none => rw [hl] at h; cases h
  | some cs =>
    rw [hl] at h
    dsimp only at h ⊢
    by_cases hcs : cs = ""
    · rw [if_pos hcs] at h; cases h
    · rw [if_neg hcs] at h
      rw [if_neg hcs]
      cases hsp : pysplit ';' cs with
      | nil => rw [hsp] at h; cases h
      | cons p0 rest =>
        rw [hsp] at h
        simp only at h ⊢
        by_cases hct : pycontains (pystrip p0) '=' = true
        · rw [if_pos hct] at h ⊢
          cases hse : pysplit '=' (pystrip p0) with
          | nil => rw [hse] at h; cases h
          | cons nm tl =>
            rw [hse] at h
            dsimp only at h ⊢
            injection h with h'
            injection h' with hn hv
            subst hn; subst hv
            simp [cookieSet, List.lookup]
        · rw [if_neg hct] at h; cases h

/-- **C5**: whenever the proxy GET returns HTTP 200, the session cookies are
first updated via `_update_cookies_from_headers` (which, when the
`Zr-Set-Cookie` header is present with a `'='` in its first `';'`-separated
part, sets the cookie named there), and only then is the decoded JSON body
returned. -/
theorem make_request_proxy_200_cookie_update
    (s : Session) (params : Option (List (String × PyVal))) (o : Oracle)
    (s1 : Session) (pr : HttpResponse)
    (hinit : initSession s o = some s1)
    (hdir : (direct_phase s1 o).returned = Option.none)
    (hnp : noProxyFlag params = false)
    (hp : o.proxy = .resp pr) (h200 : pr.status = 200) :
    (make_request s params o).session =
      update_cookies_from_headers pr.headers (direct_phase s1 o).session ∧
    (pr.jsonOk = true → (make_request s params o).result = .ok pr.body) ∧
    (∀ n v, zrCookie pr.headers = some (n, v) →
      (make_request s params o).session.cookies.lookup n = some v) := by
  simp only [make_request, hinit, make_request_core, hdir, hnp, hp]
  rw [if_pos h200]
  cases hj : pr.jsonOk with
  | true =>
    exact ⟨rfl, fun _ => rfl,
      fun n v hzr => update_cookies_sets pr.headers _ n v hzr⟩
  | false =>
    refine ⟨rfl, fun hcon => (Bool.false_ne_true hcon).elim, fun n v hzr => ?_⟩
    exact update_cookies_sets pr.headers _ n v hzr

/-- Witness for **C5**: direct GET raises, proxy returns 200 with header
`Zr-Set-Cookie: cf_clearance=tok123; Path=/; Secure`. -/
theorem make_request_proxy_200_cookie_update_witness :
    (make_request wSession Option.none wOracleProxy).session =
      update_cookies_from_headers wProxyResp.headers
        (direct_phase wSession wOracleProxy).session ∧
    (make_request wSession Option.none wOracleProxy).result = .ok wProxyResp.body ∧
    (make_request wSession Option.none wOracleProxy).session.cookies.lookup
        "cf_clearance" = some "tok123" := by
  have h := make_request_proxy_200_cookie_update wSession Option.none wOracleProxy
    wSession wProxyResp rfl rfl rfl rfl rfl
  exact ⟨h.1, h.2.1 rfl, h.2.2 "cf_clearance" "tok123" rfl⟩

/-- **C3**: every DexScreener operation invoked with a required parameter
missing (empty string) raises its validation error and issues no HTTP
request: `get_pairs` without chain or pair id, `get_token_orders` without
chain id or token address(es), pairs-by-token without token addresses,
`search_pairs` without a query — in the aggregated tool, the pairs tool,
and the API component. -/
theorem dexscreen_missing_param_validation
    (chain_id pair_id token_addresses search_query : String) (o : HttpOutcome) :
    ((chain_id = "" ∨ pair_id = "") →
      (dexscreen_tool chain_id pair_id token_addresses search_query .get_pairs o) =
        ⟨.error (.toolError (.valueError
          "Both chain_id and pair_id are required for GET_PAIRS")), []⟩) ∧
    ((chain_id = "" ∨ token_addresses = "") →
      (dexscreen_tool chain_id pair_id token_addresses search_query .get_token_orders o) =
        ⟨.error (.toolError (.valueError
          "Both chain_id and token_addresses are required for GET_TOKEN_ORDERS")), []⟩) ∧
    (token_addresses = "" →
      (dexscreen_tool chain_id pair_id token_addresses search_query .get_pairs_by_token o) =
        ⟨.error (.toolError (.valueError
          "token_addresses is required for GET_PAIRS_BY_TOKEN")), []⟩) ∧
    (search_query = "" →
      (dexscreen_tool chain_id pair_id token_addresses search_query .search_pairs o) =
        ⟨.error (.toolError (.valueError
          "search_query is required for SEARCH_PAIRS")), []⟩) ∧
    ((chain_id = "" ∨ pair_id = "") →
      (pairs_tool_get_pairs chain_id pair_id o) =
        ⟨.error (.toolError (.valueError "Both chain_id and pair_id are required")), []⟩) ∧
    ((chain_id = "" ∨ pair_id = "") →
      (api_get_pairs_by_chain_and_address chain_id pair_id o) =
        ⟨.error (.valueError "Both chain_id and pair_id are required"), []⟩) := by
  refine ⟨fun h => ?_, fun h => ?_, fun h => ?_, fun h => ?_, fun h => ?_, fun h => ?_⟩ <;>
    simp [dexscreen_tool, pairs_tool_get_pairs, api_get_pairs_by_chain_and_address, h]

/-- Witness for **C3**: all parameters empty. -/
theorem dexscreen_missing_param_validation_witness :
    (dexscreen_tool "" "" "" "" .get_pairs .exc) =
      ⟨.error (.toolError (.valueError
        "Both chain_id and pair_id are required for GET_PAIRS")), []⟩ ∧
    (dexscreen_tool "" "" "" "" .get_token_orders .exc) =
      ⟨.error (.toolError (.valueError
        "Both chain_id and token_addresses are required for GET_TOKEN_ORDERS")), []⟩ ∧
    (dexscreen_tool "" "" "" "" .get_pairs_by_token .exc) =
      ⟨.error (.toolError (.valueError
        "token_addresses is required for GET_PAIRS_BY_TOKEN")), []⟩ ∧
    (dexscreen_tool "" "" "" "" .search_pairs .exc) =
      ⟨.error (.toolError (.valueError "search_query is required for SEARCH_PAIRS")), []⟩ ∧
    (pairs_tool_get_pairs "" "" .exc) =
      ⟨.error (.toolError (.valueError "Both chain_id and pair_id are required")), []⟩ ∧
    (api_get_pairs_by_chain_and_address "" "" .exc) =
      ⟨.error (.valueError "Both chain_id and pair_id are required"), []⟩ := by
  have h := dexscreen_missing_param_validation "" "" "" "" .exc
  exact ⟨h.1 (Or.inl rfl), h.2.1 (Or.inl rfl), h.2.2.1 rfl, h.2.2.2.1 rfl,
    h.2.2.2.2.1 (Or.inl rfl), h.2.2.2.2.2 (Or.inl rfl)⟩

theorem getJson_no_valueError (o : HttpOutcome) (m : String) :
    getJson o ≠ .error (.valueError m) := by
  unfold getJson
  cases o with
  | exc => simp
  | resp r =>
    by_cases hs : 400 ≤ r.status
    · simp [hs]
    · by_cases hj : r.jsonOk = true
      · simp [hs, hj]
      · simp [hs, hj]

theorem dictGetList_no_valueError (v : PyVal) (k m : String) :
    dictGetList v k ≠ .error (.valueError m) := by
  unfold dictGetList
  cases v <;> simp
  rename_i d
  cases dget d k (.list []) <;> simp

theorem fetchPairsList_no_valueError (o : HttpOutcome) (k m : String) :
    fetchPairsList o k ≠ .error (.valueError m) := by
  unfold fetchPairsList
  cases hg : getJson o with
  | error e =>
    intro hcon
    injection hcon with h'
    exact getJson_no_valueError o m (by rw [hg, h'])
  | ok j => exact dictGetList_no_valueError j k m

theorem toolWrap_no_max_error (r : Except DexError (List PyVal))
    (h : r ≠ .error (.valueError "Maximum of 30 token addresses allowed")) :
    toolWrap r ≠ .error (.toolError (.valueError "Maximum of 30 token addresses allowed")) := by
  cases r with
  | ok v => simp [toolWrap]
  | error e =>
    simp [toolWrap]
    intro he
    exact h (by rw [he])

/-- **C9**: in both pairs-by-token operations the comma-separated
`token_addresses` input is split on `','`, entries are stripped and empty
entries dropped; the maximum-of-30-addresses error is raised if and only if
more than 30 non-empty addresses remain, and otherwise (for non-empty
input) the cleaned re-joined list is used in the request URL. -/
theorem pairs_by_token_addresses_cleaning (token_addresses : String) (o : HttpOutcome) :
    ((api_get_pairs_by_token_addresses token_addresses o).outcome =
        .error (.valueError "Maximum of 30 token addresses allowed") ↔
      30 < (cleanAddresses token_addresses).length) ∧
    ((dexscreen_tool "" "" token_addresses "" .get_pairs_by_token o).outcome =
        .error (.toolError (.valueError "Maximum of 30 token addresses allowed")) ↔
      30 < (cleanAddresses token_addresses).length) ∧
    (token_addresses ≠ "" → (cleanAddresses token_addresses).length ≤ 30 →
      (api_get_pairs_by_token_addresses token_addresses o).requests =
        [⟨dexBaseUrl ++ "/latest/dex/tokens/" ++
            pyjoin "," (cleanAddresses token_addresses), []⟩] ∧
      (dexscreen_tool "" "" token_addresses "" .get_pairs_by_token o).requests =
        [⟨dexBaseUrl ++ "/latest/dex/tokens/" ++
            pyjoin "," (cleanAddresses token_addresses), []⟩]) := by
  by_cases hta : token_addresses = ""
  · subst hta
    have hlen : (cleanAddresses "").length = 0 := by decide
    refine ⟨?_, ?_, fun hne _ => absurd rfl hne⟩
    · simp [api_get_pairs_by_token_addresses, hlen]
    · simp [dexscreen_tool, hlen]
  · by_cases h30 : 30 < (cleanAddresses token_addresses).length
    · refine ⟨?_, ?_, fun _ hle => absurd h30 (by omega)⟩
      · simp [api_get_pairs_by_token_addresses, hta, h30]
      · simp [dexscreen_tool, hta, h30]
    · refine ⟨?_, ?_, fun _ _ => ?_⟩
      · simp only [api_get_pairs_by_token_addresses, if_neg hta, if_neg h30]
        constructor
        · intro hcon
          exact absurd hcon (fetchPairsList_no_valueError o "pairs" _)
        · intro hcon; omega
      · simp only [dexscreen_tool, if_neg hta, if_neg h30]
        constructor
        · intro hcon
          exact absurd hcon
            (toolWrap_no_max_error _ (fetchPairsList_no_valueError o "pairs" _))
        · intro hcon; omega
      · constructor
        · simp [api_get_pairs_by_token_addresses, hta, h30]
        · simp [dexscreen_tool, hta, h30]

/-- Witness for **C9**: the input `" a , ,b,"` cleans to `["a", "b"]` and
the request URL uses the re-joined cleaned list. -/
theorem pairs_by_token_addresses_cleaning_witness :
    cleanAddresses " a , ,b," = ["a", "b"] ∧
    ((api_get_pairs_by_token_addresses " a , ,b," .exc).outcome =
        .error (.valueError "Maximum of 30 token addresses allowed") ↔
      30 < (cleanAddresses " a , ,b,").length) ∧
    (api_get_pairs_by_token_addresses " a , ,b," .exc).requests =
      [⟨dexBaseUrl ++ "/latest/dex/tokens/" ++ pyjoin "," (cleanAddresses " a , ,b,"), []⟩] := by
  have h := pairs_by_token_addresses_cleaning " a , ,b," .exc
  exact ⟨by decide, h.1, (h.2.2 (by decide) (by decide)).1⟩

/-- **C10**: `get_kline` converts any `datetime` bound to an integer Unix
timestamp before building the request, so the `from` and `to` parameters it
passes to `_make_request` are always integers or `None`. -/
theorem get_kline_params_int_or_none (token_address resolution : String)
    (from_time to_time : PyVal)
    (hf : isTimeArg from_time = true) (ht : isTimeArg to_time = true) :
    isIntOrNone (dget (get_kline_request token_address resolution from_time to_time).2
        "from" .none) = true ∧
    isIntOrNone (dget (get_kline_request token_address resolution from_time to_time).2
        "to" .none) = true := by
  constructor
  · cases from_time <;> simp_all [get_kline_request, dget, isTimeArg, isIntOrNone,
      List.lookup, pytruncRat]
  · cases to_time <;> simp_all [get_kline_request, dget, isTimeArg, isIntOrNone,
      List.lookup, pytruncRat]

/-- Witness for **C10**: a fractional-timestamp datetime lower bound and an
absent upper bound. -/
theorem get_kline_params_int_or_none_witness :
    isIntOrNone (dget (get_kline_request "tok" "5m" (.dt (3 / 2)) .none).2
        "from" .none) = true ∧
    isIntOrNone (dget (get_kline_request "tok" "5m" (.dt (3 / 2)) .none).2
        "to" .none) = true :=
  get_kline_params_int_or_none "tok" "5m" (.dt (3 / 2)) .none rfl rfl

set_option maxRecDepth 100000 in
set_option maxHeartbeats 1000000 in
/-- **C4**: when every fetched input is absent (all thirteen gathered task
results are captured exceptions, each extracted to `{}`), report assembly
raises no exception and produces exactly the fixed section list
`emptyReportSections`, in which every section is present and shows only its
explicit no-data placeholders; the joined report follows. -/
theorem report_all_inputs_absent :
    get_all_token_info_sections 0 (List.replicate 13 FetchResult.exc) =
      .ok emptyReportSections ∧
    get_all_token_info_for_markdown 0 (List.replicate 13 FetchResult.exc) =
      .ok (pyjoin "\n\n" emptyReportSections) := by
  constructor
  · with_unfolding_all rfl
  · with_unfolding_all rfl

/-- Witness for **C8** at a concrete short series (hits the `return 50`
branch) — the theorem itself is hypothesis-free. -/
theorem calculate_rsi_bounded_witness :
    0 ≤ calculate_rsi [1, 2, 3] 14 ∧ calculate_rsi [1, 2, 3] 14 ≤ 100 :=
  calculate_rsi_bounded [1, 2, 3] 14
